import Mathlib

/-!
Verification development for the Roblox Studio MCP bridge server
(`src/server/roblox_mcp_server.py`).

The Python source is shallowly embedded below.  JSON values produced by
Python’s `json.loads` are modelled by `PyJson` (numbers are modelled as
integers; object fields are kept in insertion order, with unique keys, as
`json.loads` produces).  Python dictionaries keyed by arbitrary hashable
JSON values — the `JobQueue`’s `_pending`, `_results` and `_last_seen`
maps — are modelled as association lists with `PyJson` keys.  Wall-clock
time (`time.time()`) is modelled by an integer-valued clock passed
explicitly.  The blocking waits of `JobQueue` are embedded as bounded loops
over that clock; the concurrent actions of the plugin (the `/poll` pops and
`/result` uploads that a real run interleaves with the dispatcher’s wait)
are supplied explicitly as environment parameters.  Python runtime errors
(`AttributeError`, `TypeError`) are modelled with `Except String`.
-/

/-- A JSON value as produced by Python’s `json.loads` (numbers restricted to
integers; object fields in insertion order). -/
inductive PyJson where
  | null : PyJson
  | bool (b : Bool) : PyJson
  | num (n : Int) : PyJson
  | str (s : String) : PyJson
  | arr (xs : List PyJson) : PyJson
  | obj (kvs : List (String × PyJson)) : PyJson
deriving Repr

mutual

/-- Structural (= Python `==` on JSON-derived values, except that Python
additionally identifies `True == 1`; no claim depends on that corner). -/
def PyJson.beq : PyJson → PyJson → Bool
  | .null, .null => true
  | .bool a, .bool b => a == b
  | .num a, .num b => a == b
  | .str a, .str b => a == b
  | .arr xs, .arr ys => beqArr xs ys
  | .obj xs, .obj ys => beqObj xs ys
  | _, _ => false

def beqArr : List PyJson → List PyJson → Bool
  | [], [] => true
  | x :: xs, y :: ys => PyJson.beq x y && beqArr xs ys
  | _, _ => false

def beqObj : List (String × PyJson) → List (String × PyJson) → Bool
  | [], [] => true
  | (k₁, v₁) :: xs, (k₂, v₂) :: ys => k₁ == k₂ && PyJson.beq v₁ v₂ && beqObj xs ys
  | _, _ => false

end

mutual

theorem PyJson.eq_of_beq : ∀ a b : PyJson, PyJson.beq a b = true → a = b
  | .null, .null, _ => rfl
  | .bool a, .bool b, h => by simpa [PyJson.beq] using h
  | .num a, .num b, h => by simpa [PyJson.beq] using h
  | .str a, .str b, h => by simpa [PyJson.beq] using h
  | .arr xs, .arr ys, h =>
      congrArg PyJson.arr (eq_of_beqArr xs ys (by simpa [PyJson.beq] using h))
  | .obj xs, .obj ys, h =>
      congrArg PyJson.obj (eq_of_beqObj xs ys (by simpa [PyJson.beq] using h))

theorem eq_of_beqArr : ∀ xs ys : List PyJson, beqArr xs ys = true → xs = ys
  | [], [], _ => rfl
  | x :: xs, y :: ys, h => by
      have h' : PyJson.beq x y = true ∧ beqArr xs ys = true := by
        simpa [beqArr, Bool.and_eq_true] using h
      rw [PyJson.eq_of_beq x y h'.1, eq_of_beqArr xs ys h'.2]

theorem eq_of_beqObj :
    ∀ xs ys : List (String × PyJson), beqObj xs ys = true → xs = ys
  | [], [], _ => rfl
  | (k₁, v₁) :: xs, (k₂, v₂) :: ys, h => by
      have h' : (k₁ == k₂) = true ∧ PyJson.beq v₁ v₂ = true ∧ beqObj xs ys = true := by
        simpa [beqObj, Bool.and_eq_true, and_assoc] using h
      have hk : k₁ = k₂ := by simpa using h'.1
      rw [hk, PyJson.eq_of_beq v₁ v₂ h'.2.1, eq_of_beqObj xs ys h'.2.2]

end

mutual

theorem PyJson.beq_refl : ∀ a : PyJson, PyJson.beq a a = true
  | .null => rfl
  | .bool a => by simp [PyJson.beq]
  | .num a => by simp [PyJson.beq]
  | .str a => by simp [PyJson.beq]
  | .arr xs => by simpa [PyJson.beq] using beqArr_refl xs
  | .obj xs => by simpa [PyJson.beq] using beqObj_refl xs

theorem beqArr_refl : ∀ xs : List PyJson, beqArr xs xs = true
  | [] => rfl
  | x :: xs => by simp [beqArr, PyJson.beq_refl x, beqArr_refl xs]

theorem beqObj_refl : ∀ xs : List (String × PyJson), beqObj xs xs = true
  | [] => rfl
  | (k, v) :: xs => by simp [beqObj, PyJson.beq_refl v, beqObj_refl xs]

end

instance : DecidableEq PyJson := fun a b =>
  if h : PyJson.beq a b = true then .isTrue (PyJson.eq_of_beq a b h)
  else .isFalse (fun he => h (he ▸ PyJson.beq_refl a))

/-- Python truthiness of a JSON-derived value (`bool(x)`). -/
def PyJson.truthy : PyJson → Bool
  | .null => false
  | .bool b => b
  | .num n => n != 0
  | .str s => s != ""
  | .arr xs => !xs.isEmpty
  | .obj kvs => !kvs.isEmpty

/-- `x or y` on Python values: `x` when truthy, else `y`. -/
def pyOr (a b : PyJson) : PyJson := if a.truthy then a else b

/-- First-occurrence lookup in an association list (Python `d.get(k)` /
`d[k]` on a dict, whose keys are unique). -/
def alookup {α β : Type} [DecidableEq α] : List (α × β) → α → Option β
  | [], _ => none
  | (k', v) :: rest, k => if k' = k then some v else alookup rest k

/-- `d[k] = v` on a Python dict: replace in place if the key is present,
else append (insertion order preserved). -/
def aset {α β : Type} [DecidableEq α] : List (α × β) → α → β → List (α × β)
  | [], k, v => [(k, v)]
  | (k', v') :: rest, k, v =>
    if k' = k then (k, v) :: rest else (k', v') :: aset rest k v

/-- `d.pop(k)` / `del d[k]`: remove the binding for `k`.  On the unique-key
lists that model genuine Python dicts this removes exactly one entry. -/
def aremove {α β : Type} [DecidableEq α] (l : List (α × β)) (k : α) :
    List (α × β) :=
  l.filter (fun p => p.1 ≠ k)

/-- `d.get(k)` on a JSON object, with Python `None` embedded as `.null`. -/
def dictGet (kvs : List (String × PyJson)) (k : String) : PyJson :=
  (alookup kvs k).getD .null

theorem alookup_aset_self {α β : Type} [DecidableEq α]
    (l : List (α × β)) (k : α) (v : β) : alookup (aset l k v) k = some v := by
  induction l with
  | nil => simp [aset, alookup]
  | cons hd tl ih =>
    obtain ⟨a, b⟩ := hd
    by_cases h : a = k
    · simp [aset, h, alookup]
    · simp [aset, h, alookup, ih]

theorem alookup_aset_ne {α β : Type} [DecidableEq α]
    (l : List (α × β)) (k k' : α) (v : β) (h : k' ≠ k) :
    alookup (aset l k v) k' = alookup l k' := by
  induction l with
  | nil => simp [aset, alookup, Ne.symm h]
  | cons hd tl ih =>
    obtain ⟨a, b⟩ := hd
    by_cases hk : a = k
    · subst hk
      simp [aset, alookup, Ne.symm h]
    · simp [aset, hk, alookup, ih]

theorem alookup_aremove_self {α β : Type} [DecidableEq α]
    (l : List (α × β)) (k : α) : alookup (aremove l k) k = none := by
  induction l with
  | nil => simp [aremove, alookup]
  | cons hd tl ih =>
    obtain ⟨a, b⟩ := hd
    by_cases h : a = k
    · simpa [aremove, h] using ih
    · simpa [aremove, h, alookup] using ih

/-- Whether `pat` is an initial segment of `s` (on character lists). -/
def startsWithChars : List Char → List Char → Bool
  | [], _ => true
  | _ :: _, [] => false
  | a :: as, b :: bs => a == b && startsWithChars as bs

def containsSubChars (pat : List Char) : List Char → Bool
  | [] => startsWithChars pat []
  | c :: cs => startsWithChars pat (c :: cs) || containsSubChars pat cs

/-- `pat in s` on Python strings: the substring test. -/
def containsSub (s pat : String) : Bool := containsSubChars pat.data s.data

mutual

/-- Python `str()` of a JSON-derived value, as interpolated by the source’s
f-string `f"Unknown tool: \x7bname\x7d"`.  Container reprs are
approximated in Python style; every claim exercises only string names. -/
def pyStr : PyJson → String
  | .null => "None"
  | .bool true => "True"
  | .bool false => "False"
  | .num n => toString n
  | .str s => s
  | .arr xs => "[" ++ pyReprList xs ++ "]"
  | .obj kvs => "\x7b" ++ pyReprObj kvs ++ "\x7d"

/-- Python `repr()` of a JSON-derived value (strings quoted). -/
def pyRepr : PyJson → String
  | .str s => "\x27" ++ s ++ "\x27"
  | .null => "None"
  | .bool true => "True"
  | .bool false => "False"
  | .num n => toString n
  | .arr xs => "[" ++ pyReprList xs ++ "]"
  | .obj kvs => "\x7b" ++ pyReprObj kvs ++ "\x7d"

def pyReprList : List PyJson → String
  | [] => ""
  | [x] => pyRepr x
  | x :: xs => pyRepr x ++ ", " ++ pyReprList xs

def pyReprObj : List (String × PyJson) → String
  | [] => ""
  | [(k, v)] => "\x27" ++ k ++ "\x27: " ++ pyRepr v
  | (k, v) :: kvs => "\x27" ++ k ++ "\x27: " ++ pyRepr v ++ ", " ++ pyReprObj kvs

end

/-- Lower-case hex digit. -/
def hexDigit (n : Nat) : Char :=
  if n < 10 then Char.ofNat (48 + n) else Char.ofNat (87 + n)

/-- Escaping of one character inside a JSON string literal, as performed by
`json.dumps(..., ensure_ascii=False)`: only the quote, the backslash and
control characters below `0x20` are escaped; everything else (including
non-ASCII) is emitted verbatim. -/
def jsonEscapeChar (c : Char) : String :=
  if c.toNat = 34 then "\\\""
  else if c.toNat = 92 then "\\\\"
  else if c.toNat = 10 then "\\n"
  else if c.toNat = 9 then "\\t"
  else if c.toNat = 13 then "\\r"
  else if c.toNat = 8 then "\\b"
  else if c.toNat = 12 then "\\f"
  else if c.toNat < 0x20 then
    "\\u00" ++ String.mk [hexDigit (c.toNat / 16), hexDigit (c.toNat % 16)]
  else String.singleton c

/-- A JSON string literal as emitted by `json.dumps(..., ensure_ascii=False)`. -/
def jsonQuote (s : String) : String :=
  "\"" ++ String.join (s.data.map jsonEscapeChar) ++ "\""

/-- `n` spaces. -/
def spaces (n : Nat) : String := String.mk (List.replicate n (Char.ofNat 32))

mutual

/-- `json.dumps(v, ensure_ascii=False, indent=2)` at nesting depth `ind`
(in spaces).  With an indent, Python uses separators `(",", ": ")`, puts
every container element on its own line, and prints empty containers as
`[]` / `\x7b\x7d`. -/
def dumpsAux : PyJson → Nat → String
  | .null, _ => "null"
  | .bool true, _ => "true"
  | .bool false, _ => "false"
  | .num n, _ => toString n
  | .str s, _ => jsonQuote s
  | .arr [], _ => "[]"
  | .arr (x :: xs), ind =>
      "[\n" ++ dumpsItems (x :: xs) (ind + 2) ++ "\n" ++ spaces ind ++ "]"
  | .obj [], _ => "\x7b\x7d"
  | .obj ((k, v) :: kvs), ind =>
      "\x7b\n" ++ dumpsFields ((k, v) :: kvs) (ind + 2) ++ "\n" ++
        spaces ind ++ "\x7d"

def dumpsItems : List PyJson → Nat → String
  | [], _ => ""
  | [x], ind => spaces ind ++ dumpsAux x ind
  | x :: y :: ys, ind =>
      spaces ind ++ dumpsAux x ind ++ ",\n" ++ dumpsItems (y :: ys) ind

def dumpsFields : List (String × PyJson) → Nat → String
  | [], _ => ""
  | [(k, v)], ind => spaces ind ++ jsonQuote k ++ ": " ++ dumpsAux v ind
  | (k, v) :: kv :: kvs, ind =>
      spaces ind ++ jsonQuote k ++ ": " ++ dumpsAux v ind ++ ",\n" ++
        dumpsFields (kv :: kvs) ind

end

/-- `json.dumps(payload, ensure_ascii=False, indent=2)` as called by
`_tool_result`. -/
def dumps2 (v : PyJson) : String := dumpsAux v 0

/-- State of the `JobQueue`: per-client pending job lists (`_pending`),
results keyed by job id (`_results`), and liveness timestamps
(`_last_seen`).  Keys are hashable JSON values; insertion order of the
Python dicts is preserved by the association lists. -/
structure JQ where
  pending : List (PyJson × List PyJson)
  results : List (PyJson × PyJson)
  lastSeen : List (PyJson × Int)
deriving Repr, DecidableEq

/-- `JobQueue.mark_seen`. -/
def mark_seen (q : JQ) (cid : PyJson) (now : Int) : JQ :=
  { q with lastSeen := aset q.lastSeen cid now }

/-- `JobQueue.get_last_seen`. -/
def get_last_seen (q : JQ) (cid : PyJson) : Option Int :=
  alookup q.lastSeen cid

/-- `JobQueue.is_connected` with the default `max_age = 15.0`. -/
def is_connected (q : JQ) (cid : PyJson) (now : Int) : Bool :=
  match alookup q.lastSeen cid with
  | none => false
  | some last => now - last < 15

/-- `JobQueue.enqueue`: `self._pending.setdefault(client_id, []).append(job)`. -/
def enqueue (q : JQ) (cid : PyJson) (job : PyJson) : JQ :=
  { q with
    pending := aset q.pending cid (((alookup q.pending cid).getD []) ++ [job]) }

/-- One iteration step of `JobQueue.wait_for_job`’s guarded loop.  The loop
first tests the queue (Python truthiness: present and non-empty) and pops
the head, and only then compares the deadline.  In the quiescent
environment modelled here nothing changes during a `cv.wait` and the wait
returns only at the deadline, so one sleep (`fuel = 1`) is exact; claims
that involve concurrent arrivals insert them explicitly before the call. -/
def wait_for_job_aux : Nat → JQ → PyJson → Int → Int → Option PyJson × JQ
  | fuel, q, cid, now, deadline =>
    match alookup q.pending cid with
    | some (j :: rest) =>
        (some j, { q with pending := aset q.pending cid rest })
    | _ =>
      if deadline - now ≤ 0 then (none, q)
      else
        match fuel with
        | 0 => (none, q)
        | f + 1 => wait_for_job_aux f q cid deadline deadline

/-- `JobQueue.wait_for_job(client_id, timeout_sec)` started at time `now`. -/
def wait_for_job (q : JQ) (cid : PyJson) (now timeout_sec : Int) :
    Option PyJson × JQ :=
  wait_for_job_aux 1 q cid now (now + timeout_sec)

/-- `JobQueue.store_result`: `self._results[job_id] = result`.  The Python
assignment raises `TypeError` on an unhashable key; the call site that can
receive such keys (`do_POST`) performs that check explicitly. -/
def store_result (q : JQ) (jid : PyJson) (r : PyJson) : JQ :=
  { q with results := aset q.results jid r }

/-- One iteration step of `JobQueue.wait_for_result`’s guarded loop: test
`job_id in self._results` (and consume via `pop`) before comparing the
deadline; same quiescent-wait convention as `wait_for_job_aux`. -/
def wait_for_result_aux : Nat → JQ → PyJson → Int → Int → Option PyJson × JQ
  | fuel, q, jid, now, deadline =>
    match alookup q.results jid with
    | some r => (some r, { q with results := aremove q.results jid })
    | none =>
      if deadline - now ≤ 0 then (none, q)
      else
        match fuel with
        | 0 => (none, q)
        | f + 1 => wait_for_result_aux f q jid deadline deadline

/-- `JobQueue.wait_for_result(job_id, timeout_sec)` started at time `now`. -/
def wait_for_result (q : JQ) (jid : PyJson) (now timeout_sec : Int) :
    Option PyJson × JQ :=
  wait_for_result_aux 1 q jid now (now + timeout_sec)

/-- The inner loop of `JobQueue.cancel_job` on one mailbox: remove the
first job whose `job.get("job_id")` equals the target.  `.get` on a
non-dict entry raises `AttributeError`. -/
def remove_first_job : List PyJson → PyJson → Except String (Option (List PyJson))
  | [], _ => .ok none
  | j :: rest, jid =>
    match j with
    | .obj kvs =>
      if (alookup kvs "job_id").getD .null = jid then .ok (some rest)
      else (remove_first_job rest jid).map (fun o => o.map (fun l => .obj kvs :: l))
    | _ => .error "AttributeError"

/-- `JobQueue.cancel_job`’s scan over `self._pending.items()` in insertion
order; stops at the first removed job. -/
def cancel_scan : List (PyJson × List PyJson) → PyJson →
    Except String (Option (List (PyJson × List PyJson)))
  | [], _ => .ok none
  | (c, queue) :: rest, jid =>
    match remove_first_job queue jid with
    | .error e => .error e
    | .ok (some queue') => .ok (some ((c, queue') :: rest))
    | .ok none => (cancel_scan rest jid).map (fun o => o.map (fun l => (c, queue) :: l))

/-- `JobQueue.cancel_job(job_id) → bool`. -/
def cancel_job (q : JQ) (jid : PyJson) : Except String (Bool × JQ) :=
  match cancel_scan q.pending jid with
  | .error e => .error e
  | .ok (some pending') => .ok (true, { q with pending := pending' })
  | .ok none => .ok (false, q)

/-- The state effect of one plugin `GET /poll` that found the mailbox
non-empty: `wait_for_job` pops the head job (`queue.pop(0)`). -/
def pluginPoll (q : JQ) (cid : PyJson) : JQ :=
  match alookup q.pending cid with
  | some (_ :: rest) => { q with pending := aset q.pending cid rest }
  | _ => q

/-- `n` successive plugin polls on the same client. -/
def pluginPolls : Nat → JQ → PyJson → JQ
  | 0, q, _ => q
  | n + 1, q, cid => pluginPolls n (pluginPoll q cid) cid

/-- `_tool_result(payload)`: the success envelope, whose text is
`json.dumps(payload, ensure_ascii=False, indent=2)`. -/
def tool_result (payload : PyJson) : PyJson :=
  .obj [("content", .arr [.obj [("type", .str "text"),
                                ("text", .str (dumps2 payload))]])]

/-- `_tool_error(message)` for an arbitrary (not necessarily string)
message value, as in the `result.get("error")` branch. -/
def tool_error_payload (message : PyJson) : PyJson :=
  .obj [("isError", .bool true),
        ("content", .arr [.obj [("type", .str "text"), ("text", message)]])]

/-- `_tool_error(message)` for a literal string message. -/
def tool_error (message : String) : PyJson := tool_error_payload (.str message)

/-- The fixed client-offline message (two adjacent string literals in the
source concatenate). -/
def notConnectedMsg : String :=
  "Studio is not connected. Make sure the Roblox Studio plugin is installed and \x27Start Bridge Polling\x27 has been clicked."

/-- The fixed dispatcher-timeout message. -/
def timeoutMsg : String :=
  "Timed out waiting for Studio to respond. Check that the plugin is running and connected."

/-- The `tool_to_job` table of `_build_job`, in source order. -/
def tool_to_job : List (String × String) := [
  ("roblox_list_services", "list_services"),
  ("roblox_get_children", "get_children"),
  ("roblox_get_descendants", "get_descendants"),
  ("roblox_get_instance", "get_instance"),
  ("roblox_find_instances", "find_instances"),
  ("roblox_create_instance", "create_instance"),
  ("roblox_delete_instance", "delete_instance"),
  ("roblox_clone_instance", "clone_instance"),
  ("roblox_reparent_instance", "reparent_instance"),
  ("roblox_set_name", "set_name"),
  ("roblox_select_instance", "select_instance"),
  ("roblox_get_tree", "get_tree"),
  ("roblox_get_attributes", "get_attributes"),
  ("roblox_set_attributes", "set_attributes"),
  ("roblox_get_properties", "get_properties"),
  ("roblox_set_properties", "set_properties"),
  ("roblox_get_tags", "get_tags"),
  ("roblox_add_tag", "add_tag"),
  ("roblox_remove_tag", "remove_tag"),
  ("roblox_read_script", "read_script"),
  ("roblox_write_script", "write_script"),
  ("roblox_patch_script", "patch_script"),
  ("roblox_get_script_lines", "get_script_lines"),
  ("roblox_search_script", "search_script"),
  ("roblox_get_script_functions", "get_script_functions"),
  ("roblox_search_across_scripts", "search_across_scripts"),
  ("roblox_get_selection", "get_selection"),
  ("roblox_open_script", "open_script"),
  ("roblox_get_open_scripts", "get_open_scripts"),
  ("roblox_close_script", "close_script"),
  ("roblox_undo", "undo"),
  ("roblox_redo", "redo"),
  ("roblox_set_waypoint", "set_waypoint"),
  ("roblox_get_all_properties", "get_all_properties"),
  ("roblox_run_code", "run_code"),
  ("roblox_insert_model", "insert_model"),
  ("roblox_get_console_output", "get_console_output"),
  ("roblox_start_stop_play", "start_stop_play"),
  ("roblox_run_script_in_play_mode", "run_script_in_play_mode"),
  ("roblox_get_studio_mode", "get_studio_mode"),
  ("roblox_terrain_fill_block", "terrain_fill_block"),
  ("roblox_terrain_fill_ball", "terrain_fill_ball"),
  ("roblox_terrain_fill_cylinder", "terrain_fill_cylinder"),
  ("roblox_terrain_replace_material", "terrain_replace_material"),
  ("roblox_terrain_read_voxels", "terrain_read_voxels"),
  ("roblox_terrain_clear_region", "terrain_clear_region"),
  ("roblox_bulk_create_instances", "bulk_create_instances"),
  ("roblox_bulk_set_properties", "bulk_set_properties"),
  ("roblox_bulk_delete_instances", "bulk_delete_instances"),
  ("roblox_find_and_replace_in_scripts", "find_and_replace_in_scripts"),
  ("roblox_get_place_info", "get_place_info"),
  ("roblox_set_lighting", "set_lighting"),
  ("roblox_get_workspace_info", "get_workspace_info"),
  ("roblox_get_team_list", "get_team_list"),
  ("roblox_get_lighting_effects", "get_lighting_effects")]

/-- `_build_job(name, arguments)`.  The uuid-minted job id
(`f"job_..."` with 12 hex chars) is supplied as the oracle parameter
`jid`; `created_at = time.time()` is the clock `now`.  `arguments` is the
already-checked dict of the call (`dict(arguments)` copies it).  A
non-string `name` is not a key of `tool_to_job`, so it yields `none`
(unknown tool), as in Python. -/
def build_job (jid : String) (now : Int) (name : PyJson)
    (arguments : List (String × PyJson)) : Option PyJson :=
  match name with
  | .str n =>
    match alookup tool_to_job n with
    | none => none
    | some job_type =>
      let job_args := arguments
      let job_args :=
        if job_type = "run_code" ∨ job_type = "run_script_in_play_mode" then
          if ¬ (dictGet job_args "code").truthy then
            aset job_args "code"
              (pyOr (dictGet job_args "script") (dictGet job_args "source"))
          else job_args
        else job_args
      some (.obj [("job_id", .str jid), ("type", .str job_type),
                  ("args", .obj job_args), ("created_at", .num now)])
  | _ => none

/-- `_get_connection_status(job_queue, arguments)`.  With the integral
clock, `round(age, 1) = age`. -/
def get_connection_status (q : JQ) (now : Int)
    (arguments : List (String × PyJson)) : PyJson :=
  let cid := pyOr (dictGet arguments "client_id") (.str "studio")
  match get_last_seen q cid with
  | none => .obj [("connected", .bool false), ("client_id", cid)]
  | some last =>
    .obj [("connected", .bool (now - last < 15)), ("client_id", cid),
          ("last_seen_seconds", .num (now - last))]

/-- The plugin-side activity interleaved with the dispatcher’s
`wait_for_result`: how many `/poll` pops of the client’s mailbox happen,
and the `/result` body (if any) uploaded for this job’s id before the
dispatcher’s deadline. -/
structure CallEnv where
  polls : Nat
  upload : Option PyJson
deriving Repr

/-- The tail of `McpServer._call_tool` from `enqueue` on (factored out for
reuse in proofs): enqueue the minted job, let the plugin’s interleaved
activity happen (`env`), `wait_for_result`, and wrap the outcome — cancel
and the fixed timeout message when nothing arrived, an error envelope when
`result.get("ok", False)` is falsy (message `result.get("error")` or
`"Studio error"`), and the success envelope over `result.get("result")`
otherwise. -/
def dispatch_job (q : JQ) (env : CallEnv) (now : Int) (jid : String)
    (job_timeout : Int) (cid : PyJson) (job : PyJson) :
    Except String (PyJson × JQ) :=
  let q1 := enqueue q cid job
  let q2 := pluginPolls env.polls q1 cid
  let q3 := match env.upload with
            | some r => store_result q2 (.str jid) r
            | none => q2
  match wait_for_result q3 (.str jid) now job_timeout with
  | (none, q4) =>
    match cancel_job q4 (.str jid) with
    | .error e => .error e
    | .ok (_, q5) => .ok (tool_error timeoutMsg, q5)
  | (some r, q4) =>
    match r with
    | .obj rkvs =>
      if ((alookup rkvs "ok").getD (.bool false)).truthy then
        .ok (tool_result (dictGet rkvs "result"), q4)
      else
        .ok (tool_error_payload
              (pyOr (dictGet rkvs "error") (.str "Studio error")), q4)
    | _ => .error "AttributeError"

/-- `McpServer._call_tool(name, arguments)`.  `arguments.get(...)` on a
non-dict raises `AttributeError` (both on the status path, inside
`_get_connection_status`, and on the dispatch path), so the dict check is
hoisted.  `jid` is the minted uuid job id, `job_timeout` the configured
timeout (default 30), `now` the clock at the call. -/
def call_tool (q : JQ) (env : CallEnv) (now : Int) (jid : String)
    (job_timeout : Int) (name arguments : PyJson) :
    Except String (PyJson × JQ) :=
  match arguments with
  | .obj akvs =>
    if name = .str "studio_get_connection_status" then
      .ok (tool_result (get_connection_status q now akvs), q)
    else
      let cid := pyOr (dictGet akvs "client_id") (.str "studio")
      if is_connected q cid now then
        match build_job jid now name akvs with
        | none => .ok (tool_error ("Unknown tool: " ++ pyStr name), q)
        | some job => dispatch_job q env now jid job_timeout cid job
      else
        .ok (tool_error notConnectedMsg, q)
  | _ => .error "AttributeError"

/-- Schema fragment `\x7b"type": "string"\x7d`. -/
def tstr : PyJson := .obj [("type", .str "string")]

/-- Schema fragment `\x7b"type": "string", "description": d\x7d`. -/
def tstrD (d : String) : PyJson :=
  .obj [("type", .str "string"), ("description", .str d)]

/-- Schema fragment `\x7b"type": "integer"\x7d`. -/
def tint : PyJson := .obj [("type", .str "integer")]

/-- Schema fragment `\x7b"type": "integer", "description": d\x7d`. -/
def tintD (d : String) : PyJson :=
  .obj [("type", .str "integer"), ("description", .str d)]

/-- Schema fragment `\x7b"type": "number"\x7d`. -/
def tnum : PyJson := .obj [("type", .str "number")]

/-- Schema fragment `\x7b"type": "number", "description": d\x7d`. -/
def tnumD (d : String) : PyJson :=
  .obj [("type", .str "number"), ("description", .str d)]

/-- Schema fragment `\x7b"type": "boolean"\x7d`. -/
def tbool : PyJson := .obj [("type", .str "boolean")]

/-- Schema fragment `\x7b"type": "boolean", "description": d\x7d`. -/
def tboolD (d : String) : PyJson :=
  .obj [("type", .str "boolean"), ("description", .str d)]

/-- Schema fragment `\x7b"type": "object"\x7d`. -/
def tobj : PyJson := .obj [("type", .str "object")]

/-- Schema fragment `\x7b"type": "object", "description": d\x7d`. -/
def tobjD (d : String) : PyJson :=
  .obj [("type", .str "object"), ("description", .str d)]

/-- Schema fragment `\x7b"type": "array", "items": \x7b"type": "string"\x7d\x7d`. -/
def tarrStr : PyJson := .obj [("type", .str "array"), ("items", tstr)]

/-- Like `tarrStr` with a description (field order as in the source:
type, items, description). -/
def tarrStrD (d : String) : PyJson :=
  .obj [("type", .str "array"), ("items", tstr), ("description", .str d)]

/-- A tool descriptor `\x7bname, description, inputSchema\x7d`. -/
def toolD (name desc : String) (schema : PyJson) : PyJson :=
  .obj [("name", .str name), ("description", .str desc),
        ("inputSchema", schema)]

/-- The repeated literal schema
`\x7b"type": "object", "properties": \x7b"client_id": \x7b"type": "string"\x7d\x7d\x7d`. -/
def client_id_only_schema : PyJson :=
  .obj [("type", .str "object"), ("properties", .obj [("client_id", tstr)])]

/-- `_INSTANCE_REF_PROPS`. -/
def instance_ref_props : List (String × PyJson) := [
  ("path", tstrD "Dot-separated path, e.g. \x27Workspace.Baseplate\x27."),
  ("pathArray", tarrStrD "Path as array of names, e.g. [\x27Workspace\x27,\x27Baseplate\x27]."),
  ("id", tstrD "Debug id returned by a previous call."),
  ("client_id", tstr)]

/-- `_REGION_PROPS`. -/
def region_props : List (String × PyJson) := [
  ("regionMin", tobjD "\x7b\"x\":0,\"y\":0,\"z\":0\x7d minimum corner of the region."),
  ("regionMax", tobjD "\x7b\"x\":100,\"y\":50,\"z\":100\x7d maximum corner."),
  ("resolution", tintD "Voxel resolution in studs (multiple of 4, default 4)."),
  ("client_id", tstr)]

/-- `_ref_schema(extra_props, required)`: copy `_INSTANCE_REF_PROPS`,
`update` with the extras (in-place for existing keys, appended otherwise),
and attach `required` when non-empty (Python passes `None` by default;
`if required:` is list truthiness). -/
def ref_schema (extra_props : List (String × PyJson)) (required : List String) :
    PyJson :=
  let props := extra_props.foldl (fun acc kv => aset acc kv.1 kv.2) instance_ref_props
  let base := [("type", .str "object"), ("properties", .obj props)]
  .obj (if required.isEmpty then base
        else base ++ [("required", .arr (required.map PyJson.str))])

/-- `_build_tools()`: the static tool catalog, in source order. -/
def build_tools : List PyJson := [
  toolD "studio_get_connection_status"
    "Check if the Roblox Studio plugin is connected to the bridge."
    client_id_only_schema,
  toolD "roblox_list_services"
    "List top-level services in the current place."
    client_id_only_schema,
  toolD "roblox_get_children"
    "Get the direct children of an instance."
    (ref_schema [] []),
  toolD "roblox_get_descendants"
    "Get all descendants of an instance. Can be large - prefer get_tree for an overview."
    (ref_schema [] []),
  toolD "roblox_get_instance"
    "Get info (name, className, fullName) for a single instance."
    (ref_schema [] []),
  toolD "roblox_find_instances"
    "Find instances matching name, className, and/or tag under an ancestor."
    (.obj [("type", .str "object"), ("properties", .obj [
      ("name", tstrD "Exact Name match."),
      ("className", tstrD "Exact ClassName match."),
      ("tag", tstrD "Must have this CollectionService tag."),
      ("ancestorPath", tstr),
      ("ancestorPathArray", tarrStr),
      ("client_id", tstr)])]),
  toolD "roblox_get_tree"
    "Get a compact recursive tree of an instance hierarchy. Returns name, className, and for scripts the line count. Use maxDepth to limit depth (default 5) and maxChildren to cap children per node (default 50)."
    (ref_schema [
      ("maxDepth", tintD "Max tree depth (default 5)."),
      ("maxChildren", tintD "Max children per node (default 50).")] []),
  toolD "roblox_create_instance"
    "Create a new instance. Set properties (including Name, Source for scripts) via the properties dict. Supports rich types via _type objects."
    (.obj [("type", .str "object"), ("properties", .obj [
      ("className", tstr),
      ("parentPath", tstr),
      ("parentPathArray", tarrStr),
      ("properties", tobjD "Key/value map of properties to set. Use _type objects for rich types."),
      ("client_id", tstr)]),
      ("required", .arr [.str "className"])]),
  toolD "roblox_delete_instance"
    "Destroy an instance and all its descendants. Undoable via Ctrl+Z."
    (ref_schema [] []),
  toolD "roblox_clone_instance"
    "Clone an instance (and its descendants). Optionally place under a new parent and rename. Undoable."
    (ref_schema [
      ("newParentPath", tstr),
      ("newParentPathArray", tarrStr),
      ("newName", tstrD "Rename the clone.")] []),
  toolD "roblox_reparent_instance"
    "Move an instance to a new parent. Undoable."
    (ref_schema [
      ("newParentPath", tstr),
      ("newParentPathArray", tarrStr)] ["newParentPath"]),
  toolD "roblox_set_name"
    "Rename an instance. Undoable."
    (ref_schema [("name", tstr)] ["name"]),
  toolD "roblox_select_instance"
    "Select an instance in the Studio Explorer (for visibility)."
    (ref_schema [] []),
  toolD "roblox_get_selection"
    "Get the instances currently selected in the Studio Explorer."
    client_id_only_schema,
  toolD "roblox_get_properties"
    "Read specific properties from an instance. Returns rich type objects with _type field for complex types (Color3, Vector3, CFrame, UDim2, BrickColor, EnumItem, etc.)."
    (ref_schema [("properties", tarrStrD "Property names to read.")] ["properties"]),
  toolD "roblox_set_properties"
    "Set properties on an instance. Undoable. For complex types, use _type objects: \x7b\"_type\":\"Color3\",\"r\":255,\"g\":0,\"b\":0\x7d, \x7b\"_type\":\"Vector3\",\"x\":1,\"y\":2,\"z\":3\x7d, etc."
    (ref_schema [("properties", tobjD "Key/value map of properties to set. Use _type objects for rich types.")] ["properties"]),
  toolD "roblox_get_attributes"
    "Get all custom attributes on an instance. Returns rich type objects for complex attribute values."
    (ref_schema [] []),
  toolD "roblox_set_attributes"
    "Set custom attributes on an instance. Undoable. Supports rich type objects."
    (ref_schema [("attributes", tobj)] ["attributes"]),
  toolD "roblox_get_tags"
    "Get all CollectionService tags on an instance."
    (ref_schema [] []),
  toolD "roblox_add_tag"
    "Add a CollectionService tag to an instance. Undoable."
    (ref_schema [("tag", tstr)] ["tag"]),
  toolD "roblox_remove_tag"
    "Remove a CollectionService tag from an instance. Undoable."
    (ref_schema [("tag", tstr)] ["tag"]),
  toolD "roblox_read_script"
    "Read the full Source of a Script/LocalScript/ModuleScript. For large scripts prefer get_script_lines to read a specific range."
    (ref_schema [] []),
  toolD "roblox_write_script"
    "Overwrite the full Source of a script. Undoable. WARNING: For partial edits use patch_script instead."
    (ref_schema [("source", tstr)] ["source"]),
  toolD "roblox_patch_script"
    "Apply line-based patches to a script without rewriting the entire source. Undoable. Ops: insert, replace, delete, append, prepend. ALWAYS provide expectedContent for replace/delete and expectedContext for insert."
    (ref_schema [("patches", .obj [
      ("type", .str "array"),
      ("items", .obj [
        ("type", .str "object"),
        ("properties", .obj [
          ("op", .obj [("type", .str "string"),
            ("enum", .arr [.str "insert", .str "replace", .str "delete",
                           .str "append", .str "prepend"])]),
          ("lineStart", tint),
          ("lineEnd", tint),
          ("content", tstr),
          ("expectedContent", tstr),
          ("expectedContext", tstr)]),
        ("required", .arr [.str "op"])])])] ["patches"]),
  toolD "roblox_get_script_lines"
    "Read a specific line range from a script. Omit startLine/endLine to get line count only."
    (ref_schema [("startLine", tint), ("endLine", tint)] []),
  toolD "roblox_search_script"
    "Search a script\x27s source for a string or Lua pattern."
    (ref_schema [
      ("query", tstr),
      ("usePattern", tbool),
      ("caseSensitive", tbool),
      ("contextLines", tint),
      ("maxResults", tint)] ["query"]),
  toolD "roblox_get_script_functions"
    "List all function definitions in a script with line numbers and types."
    (ref_schema [] []),
  toolD "roblox_search_across_scripts"
    "Search ALL scripts under an ancestor for a query string."
    (.obj [("type", .str "object"), ("properties", .obj [
      ("query", tstr),
      ("ancestorPath", tstr),
      ("ancestorPathArray", tarrStr),
      ("usePattern", tbool),
      ("caseSensitive", tbool),
      ("maxScripts", tint),
      ("maxMatchesPerScript", tint),
      ("client_id", tstr)]),
      ("required", .arr [.str "query"])]),
  toolD "roblox_run_code"
    "Execute arbitrary Lua code within Studio and return a serialized result."
    (.obj [("type", .str "object"), ("properties", .obj [
      ("code", tstr), ("client_id", tstr)]),
      ("required", .arr [.str "code"])]),
  toolD "roblox_insert_model"
    "Insert a Marketplace asset into Workspace using InsertService."
    (.obj [("type", .str "object"), ("properties", .obj [
      ("assetId", tstr), ("client_id", tstr)]),
      ("required", .arr [.str "assetId"])]),
  toolD "roblox_get_console_output"
    "Read the buffered Studio Output log captured by the plugin."
    (.obj [("type", .str "object"), ("properties", .obj [
      ("since", tnum), ("maxEntries", tint), ("client_id", tstr)])]),
  toolD "roblox_start_stop_play"
    "Switch Studio between Edit, Play, Run, or Test modes."
    (.obj [("type", .str "object"), ("properties", .obj [
      ("mode", tstr), ("action", tstr), ("client_id", tstr)]),
      ("required", .arr [.str "mode"])]),
  toolD "roblox_get_studio_mode"
    "Query the current Studio run mode and whether play mode is active."
    client_id_only_schema,
  toolD "roblox_run_script_in_play_mode"
    "Run a Lua snippet while Studio is in Play or Run mode."
    (.obj [("type", .str "object"), ("properties", .obj [
      ("code", tstr), ("client_id", tstr)]),
      ("required", .arr [.str "code"])]),
  toolD "roblox_open_script"
    "Open a script in the Studio script editor tab and optionally navigate to a line."
    (ref_schema [("line", tint)] []),
  toolD "roblox_get_open_scripts"
    "List all scripts currently open in the Studio script editor."
    client_id_only_schema,
  toolD "roblox_close_script"
    "Close a script\x27s tab in the Studio script editor."
    (ref_schema [] []),
  toolD "roblox_undo"
    "Undo the last action in Studio. Equivalent to Ctrl+Z."
    client_id_only_schema,
  toolD "roblox_redo"
    "Redo the last undone action in Studio. Equivalent to Ctrl+Y."
    client_id_only_schema,
  toolD "roblox_set_waypoint"
    "Set a named undo/redo waypoint."
    (.obj [("type", .str "object"), ("properties", .obj [
      ("name", tstr), ("client_id", tstr)])]),
  toolD "roblox_get_all_properties"
    "Read ALL properties from an instance using ReflectionService. Returns every readable, non-deprecated property with its current value."
    (ref_schema [] []),
  toolD "roblox_terrain_fill_block"
    "Fill a box-shaped volume with a terrain material. Undoable. cframe specifies the centre (position + optional rotation). size specifies the bounding box in studs. Common materials: Grass, Rock, Water, Sand, Snow, Ground, Mud, Asphalt, Brick, Concrete, Ice, Salt, Sandstone, Slate, SmoothPlastic, WoodPlanks."
    (.obj [("type", .str "object"), ("properties", .obj [
      ("cframe", tobjD "Position as \x7b\"x\":0,\"y\":0,\"z\":0\x7d or full 12-component CFrame \x7b\"components\":[…]\x7d."),
      ("size", tobjD "\x7b\"x\":10,\"y\":5,\"z\":10\x7d in studs."),
      ("material", tstrD "Terrain material name."),
      ("client_id", tstr)]),
      ("required", .arr [.str "cframe", .str "size", .str "material"])]),
  toolD "roblox_terrain_fill_ball"
    "Fill a sphere of terrain material at a given centre and radius. Undoable."
    (.obj [("type", .str "object"), ("properties", .obj [
      ("center", tobjD "\x7b\"x\":0,\"y\":0,\"z\":0\x7d"),
      ("radius", tnumD "Radius in studs."),
      ("material", tstr),
      ("client_id", tstr)]),
      ("required", .arr [.str "center", .str "radius", .str "material"])]),
  toolD "roblox_terrain_fill_cylinder"
    "Fill a cylinder of terrain material. Undoable. The cylinder axis is aligned with the CFrame\x27s Y axis."
    (.obj [("type", .str "object"), ("properties", .obj [
      ("cframe", tobjD "Centre of the cylinder \x7b\"x\":0,\"y\":0,\"z\":0\x7d."),
      ("height", tnumD "Height of the cylinder in studs."),
      ("radius", tnumD "Radius of the cylinder in studs."),
      ("material", tstr),
      ("client_id", tstr)]),
      ("required", .arr [.str "cframe", .str "height", .str "radius", .str "material"])]),
  toolD "roblox_terrain_replace_material"
    "Replace every voxel of one terrain material with another inside a Region3. Undoable. Great for large-scale reskins, e.g. swap all Sand → Ground across a level."
    (.obj [("type", .str "object"), ("properties", .obj (region_props ++ [
      ("from", tstrD "Material to replace (e.g. Sand)."),
      ("to", tstrD "Replacement material (e.g. Ground).")])),
      ("required", .arr [.str "regionMin", .str "regionMax", .str "from", .str "to"])]),
  toolD "roblox_terrain_read_voxels"
    "Read terrain voxel data (material + occupancy) from a region. For regions ≤4096 voxels: returns full per-voxel list. For larger regions: returns a material-frequency summary only. Use a higher resolution (16 or 32) to sample large areas without hitting the limit."
    (.obj [("type", .str "object"), ("properties", .obj region_props),
      ("required", .arr [.str "regionMin", .str "regionMax"])]),
  toolD "roblox_terrain_clear_region"
    "Remove all terrain (fill with Air) within a Region3. Undoable."
    (.obj [("type", .str "object"), ("properties", .obj [
      ("regionMin", tobj), ("regionMax", tobj), ("client_id", tstr)]),
      ("required", .arr [.str "regionMin", .str "regionMax"])]),
  toolD "roblox_bulk_create_instances"
    "Create up to 200 instances in a single round-trip, all in one undo waypoint. Each entry needs className; optionally parentPath/parentPathArray and a properties dict that supports _type rich-type objects. Much faster than calling create_instance N times for large batch work."
    (.obj [("type", .str "object"), ("properties", .obj [
      ("instances", .obj [
        ("type", .str "array"),
        ("maxItems", .num 200),
        ("description", .str "Array of instance specs to create."),
        ("items", .obj [
          ("type", .str "object"),
          ("properties", .obj [
            ("className", tstr),
            ("parentPath", tstr),
            ("parentPathArray", tarrStr),
            ("properties", tobj)]),
          ("required", .arr [.str "className"])])]),
      ("client_id", tstr)]),
      ("required", .arr [.str "instances"])]),
  toolD "roblox_bulk_set_properties"
    "Set properties on up to 200 instances in one round-trip, wrapped in one undo waypoint. Each operation is an instance ref (path/pathArray/id) plus a properties dict. Supports rich _type objects. Much faster than N individual set_properties calls."
    (.obj [("type", .str "object"), ("properties", .obj [
      ("operations", .obj [
        ("type", .str "array"),
        ("maxItems", .num 200),
        ("items", .obj [
          ("type", .str "object"),
          ("properties", .obj [
            ("path", tstr),
            ("pathArray", tarrStr),
            ("id", tstr),
            ("properties", tobj)]),
          ("required", .arr [.str "properties"])])]),
      ("client_id", tstr)]),
      ("required", .arr [.str "operations"])]),
  toolD "roblox_bulk_delete_instances"
    "Delete multiple instances in one round-trip, wrapped in one undo waypoint. All descendants are destroyed. Provide an array of instance refs."
    (.obj [("type", .str "object"), ("properties", .obj [
      ("instances", .obj [
        ("type", .str "array"),
        ("items", .obj [
          ("type", .str "object"),
          ("properties", .obj [
            ("path", tstr),
            ("pathArray", tarrStr),
            ("id", tstr)])])]),
      ("client_id", tstr)]),
      ("required", .arr [.str "instances"])]),
  toolD "roblox_find_and_replace_in_scripts"
    "Find a plain string in all scripts under an ancestor and replace it everywhere. All changes wrapped in one undo waypoint. Set dryRun=true to preview matches without modifying. caseSensitive defaults to true. maxScripts caps modifications (default 50, max 200). Great for renaming a variable, function, or module require path across a codebase."
    (.obj [("type", .str "object"), ("properties", .obj [
      ("find", tstrD "Plain string to find."),
      ("replace", tstrD "Replacement string."),
      ("ancestorPath", tstr),
      ("ancestorPathArray", tarrStr),
      ("caseSensitive", tbool),
      ("maxScripts", tintD "Max scripts to modify (default 50)."),
      ("dryRun", tboolD "Preview without modifying if true."),
      ("client_id", tstr)]),
      ("required", .arr [.str "find", .str "replace"])]),
  toolD "roblox_get_place_info"
    "Return metadata about the currently open place: PlaceId, GameId, name, PlaceVersion, gravity, StreamingEnabled, all Lighting service properties, and a summary of child counts for each major service."
    client_id_only_schema,
  toolD "roblox_set_lighting"
    "Set one or more Lighting service properties. Undoable. Supports rich _type objects for Color3 values. Useful properties: TimeOfDay (\x2714:00:00\x27), Brightness, FogEnd, FogStart, FogColor, GlobalShadows, Technology (EnumItem with enumType=\x27Technology\x27)."
    (.obj [("type", .str "object"), ("properties", .obj [
      ("properties", tobjD "Key/value map of Lighting properties to set."),
      ("client_id", tstr)]),
      ("required", .arr [.str "properties"])]),
  toolD "roblox_get_workspace_info"
    "Return key Workspace-level settings useful for level design: Gravity, StreamingEnabled, streaming radii, wind settings, and the current camera CFrame."
    client_id_only_schema,
  toolD "roblox_get_team_list"
    "Return all teams in the Teams service with their BrickColor and AutoAssignable setting."
    client_id_only_schema,
  toolD "roblox_get_lighting_effects"
    "Return all post-processing and lighting effects under the Lighting service (Bloom, DepthOfField, ColorCorrection, SunRays, etc.) including their key property values."
    client_id_only_schema]

/-- The `initialize` result literal. -/
def init_result : PyJson :=
  .obj [("protocolVersion", .str "2024-11-05"),
        ("serverInfo", .obj [("name", .str "roblox-mcp-bridge"),
                             ("version", .str "0.6")]),
        ("capabilities", .obj [("tools", .obj [])])]

/-- A JSON-RPC reply `\x7b"jsonrpc":"2.0","id":msg_id,"result":result\x7d`
as assembled at each `_send` site.  When the request has no `id`,
`msg.get("id")` is `None` and the reply carries `"id": null`. -/
def rpc_result (msgId result : PyJson) : PyJson :=
  .obj [("jsonrpc", .str "2.0"), ("id", msgId), ("result", result)]

/-- The JSON-RPC `-32601` reply of the unknown-method branch. -/
def rpc_method_not_found (msgId : PyJson) : PyJson :=
  .obj [("jsonrpc", .str "2.0"), ("id", msgId),
        ("error", .obj [("code", .num (-32601)),
                        ("message", .str "Method not found")])]

/-- `McpServer._handle_request(msg)`.  Returns the list of payloads written
to stdout by `_send` (in order) and the resulting queue state.  `msg.get`
on a non-dict raises `AttributeError`. -/
def handle_request (q : JQ) (env : CallEnv) (now : Int) (jid : String)
    (job_timeout : Int) (msg : PyJson) : Except String (List PyJson × JQ) :=
  match msg with
  | .obj kvs =>
    let method := dictGet kvs "method"
    let msgId := dictGet kvs "id"
    if method = .str "initialize" then
      .ok ([rpc_result msgId init_result], q)
    else if method = .str "notifications/initialized" then
      .ok ([], q)
    else if method = .str "tools/list" then
      .ok ([rpc_result msgId (.obj [("tools", .arr build_tools)])], q)
    else if method = .str "tools/call" then
      let params := pyOr (dictGet kvs "params") (.obj [])
      match params with
      | .obj pkvs =>
        let name := dictGet pkvs "name"
        let arguments := pyOr (dictGet pkvs "arguments") (.obj [])
        match call_tool q env now jid job_timeout name arguments with
        | .error e => .error e
        | .ok (result, q') => .ok ([rpc_result msgId result], q')
      | _ => .error "AttributeError"
    else
      if msgId ≠ .null then .ok ([rpc_method_not_found msgId], q)
      else .ok ([], q)
  | _ => .error "AttributeError"

/-- `"method" in msg` — Python `in` on the parsed value: key test on a
dict, element membership on a list, substring test on a string; `TypeError`
on a number, boolean or `None` (not iterable). -/
def method_in (msg : PyJson) : Except String Bool :=
  match msg with
  | .obj kvs => .ok (kvs.any (fun kv => decide (kv.1 = "method")))
  | .arr xs => .ok (xs.any (fun x => decide (x = .str "method")))
  | .str s => .ok (containsSub s "method")
  | .num _ => .error "TypeError"
  | .bool _ => .error "TypeError"
  | .null => .error "TypeError"

/-- Python `line.strip()` (ASCII whitespace). -/
def strip (s : String) : String :=
  String.mk (((s.data.dropWhile Char.isWhitespace).reverse.dropWhile
    Char.isWhitespace).reverse)

/-- One iteration of `McpServer.run` for one stdin line.  `parsed` is the
outcome of `json.loads` on the stripped line (`none` = `JSONDecodeError`),
supplied as an oracle for the library call.  Returns the payloads written
to stdout. -/
def run_step (q : JQ) (env : CallEnv) (now : Int) (jid : String)
    (job_timeout : Int) (line : String) (parsed : Option PyJson) :
    Except String (List PyJson × JQ) :=
  if strip line = "" then .ok ([], q)
  else
    match parsed with
    | none => .ok ([], q)
    | some msg =>
      match method_in msg with
      | .error e => .error e
      | .ok true => handle_request q env now jid job_timeout msg
      | .ok false => .ok ([], q)

/-- One stdin line together with the oracles for its processing: the
`json.loads` outcome, the plugin activity during any dispatched call, the
clock, and the minted job id. -/
structure StdinLine where
  raw : String
  parsed : Option PyJson
  env : CallEnv
  now : Int
  jid : String

/-- `McpServer.run`: fold `run_step` over stdin; an uncaught exception
aborts the loop (no further lines are processed). -/
def run_loop (q : JQ) (job_timeout : Int) :
    List StdinLine → Except String (List PyJson × JQ)
  | [] => .ok ([], q)
  | l :: rest =>
    match run_step q l.env l.now l.jid job_timeout l.raw l.parsed with
    | .error e => .error e
    | .ok (outs, q') =>
      match run_loop q' job_timeout rest with
      | .error e => .error e
      | .ok (outs', q'') => .ok (outs ++ outs', q'')

/-- Outcome of one HTTP request: a response with status and JSON body, or
an uncaught Python exception in the handler (no JSON response is sent). -/
inductive HttpOutcome where
  | resp (status : Nat) (body : PyJson)
  | exn (e : String)
deriving Repr, DecidableEq

/-- Whether a JSON value is hashable in Python (usable as a dict key). -/
def hashable : PyJson → Bool
  | .arr _ => false
  | .obj _ => false
  | _ => true

/-- `RobloxBridgeHttpHandler.do_POST` on path `/result`.  `parsed` is the
outcome of `json.loads(raw)` (`none` = decode error; an empty body reads as
`b"\x7b\x7d"`, so its oracle is `some (.obj [])`).  `payload.get("job_id")`
on a non-dict raises `AttributeError`; a truthy but unhashable `job_id`
(array or object) raises `TypeError` inside `store_result`’s dict
assignment. -/
def do_post_result (q : JQ) (parsed : Option PyJson) : HttpOutcome × JQ :=
  match parsed with
  | none =>
      (.resp 400 (.obj [("ok", .bool false), ("error", .str "invalid_json")]), q)
  | some payload =>
    match payload with
    | .obj kvs =>
      let job_id := dictGet kvs "job_id"
      if ¬ job_id.truthy then
        (.resp 400 (.obj [("ok", .bool false), ("error", .str "missing_job_id")]), q)
      else if ¬ hashable job_id then (.exn "TypeError", q)
      else (.resp 200 (.obj [("ok", .bool true)]), store_result q job_id payload)
    | _ => (.exn "AttributeError", q)

/-- The pending mailbox of one client (`_pending.get(client_id)`, empty
when absent). -/
def mailbox (q : JQ) (cid : PyJson) : List PyJson :=
  (alookup q.pending cid).getD []

/-- The queue state after one `wait_for_job` call (the plugin’s view of a
poll). -/
def pop_job (q : JQ) (cid : PyJson) (now t : Int) : JQ :=
  (wait_for_job q cid now t).2

/-- The queue state after `k` successive `wait_for_job` calls. -/
def pop_jobs : Nat → JQ → PyJson → Int → Int → JQ
  | 0, q, _, _, _ => q
  | k + 1, q, cid, now, t => pop_jobs k (pop_job q cid now t) cid now t

theorem mailbox_enqueue (q : JQ) (cid : PyJson) (j : PyJson) :
    mailbox (enqueue q cid j) cid = mailbox q cid ++ [j] := by
  simp [mailbox, enqueue, alookup_aset_self]

theorem wait_for_job_found (q : JQ) (cid : PyJson) (now t : Int)
    (j : PyJson) (rest : List PyJson)
    (h : alookup q.pending cid = some (j :: rest)) :
    wait_for_job q cid now t =
      (some j, { q with pending := aset q.pending cid rest }) := by
  simp [wait_for_job, wait_for_job_aux, h]

theorem wait_for_job_empty (q : JQ) (cid : PyJson) (now t : Int)
    (h : alookup q.pending cid = none ∨ alookup q.pending cid = some []) :
    wait_for_job q cid now t = (none, q) := by
  rcases h with h | h <;>
    · simp only [wait_for_job, wait_for_job_aux, h]
      split <;> simp [wait_for_job_aux, h]

theorem mailbox_pop_job (q : JQ) (cid : PyJson) (now t : Int) :
    mailbox (pop_job q cid now t) cid = (mailbox q cid).tail := by
  rcases h : alookup q.pending cid with _ | ⟨_ | ⟨j, rest⟩⟩
  · simp [pop_job, wait_for_job_empty q cid now t (Or.inl h), mailbox, h]
  · simp [pop_job, wait_for_job_empty q cid now t (Or.inr h), mailbox, h]
  · simp [pop_job, wait_for_job_found q cid now t j rest h, mailbox,
      alookup_aset_self, h]

theorem mailbox_pop_jobs (k : Nat) (q : JQ) (cid : PyJson) (now t : Int) :
    mailbox (pop_jobs k q cid now t) cid = (mailbox q cid).drop k := by
  induction k generalizing q with
  | zero => simp [pop_jobs]
  | succ k ih =>
    rw [pop_jobs, ih, mailbox_pop_job, ← List.drop_one, List.drop_drop,
      Nat.add_comm]

theorem mailbox_head_pop (q : JQ) (cid : PyJson) (now t : Int)
    (j : PyJson) (rest : List PyJson) (h : mailbox q cid = j :: rest) :
    (wait_for_job q cid now t).1 = some j := by
  have h' : alookup q.pending cid = some (j :: rest) := by
    rcases h2 : alookup q.pending cid with _ | l
    · simp [mailbox, h2] at h
    · simp only [mailbox, h2, Option.getD_some] at h
      rw [h]
  simp [wait_for_job_found q cid now t j rest h']

/-- Claim C3.  For any two jobs enqueued in order on the same `client_id`
on top of an arbitrary queue state, `enqueue` appends to the mailbox tail,
and after draining the previously pending jobs, successive `wait_for_job`
calls return J₁ strictly before J₂ — the mailbox is never reordered. -/
theorem mailbox_fifo (q : JQ) (cid j1 j2 : PyJson) (now t : Int) :
    mailbox (enqueue (enqueue q cid j1) cid j2) cid =
      mailbox q cid ++ [j1, j2] ∧
    (wait_for_job
      (pop_jobs (mailbox q cid).length (enqueue (enqueue q cid j1) cid j2)
        cid now t) cid now t).1 = some j1 ∧
    (wait_for_job
      (pop_job
        (pop_jobs (mailbox q cid).length (enqueue (enqueue q cid j1) cid j2)
          cid now t) cid now t) cid now t).1 = some j2 := by
  have hm : mailbox (enqueue (enqueue q cid j1) cid j2) cid =
      mailbox q cid ++ [j1, j2] := by
    rw [mailbox_enqueue, mailbox_enqueue, List.append_assoc]
    rfl
  have hdrop : mailbox
      (pop_jobs (mailbox q cid).length (enqueue (enqueue q cid j1) cid j2)
        cid now t) cid = [j1, j2] := by
    rw [mailbox_pop_jobs, hm, List.drop_left]
  refine ⟨hm, mailbox_head_pop _ cid now t j1 [j2] hdrop, ?_⟩
  have htail : mailbox
      (pop_job
        (pop_jobs (mailbox q cid).length (enqueue (enqueue q cid j1) cid j2)
          cid now t) cid now t) cid = [j2] := by
    rw [mailbox_pop_job, hdrop]
    rfl
  exact mailbox_head_pop _ cid now t j2 [] htail

theorem wait_for_result_found (q : JQ) (jid : PyJson) (now t : Int)
    (r : PyJson) (h : alookup q.results jid = some r) :
    wait_for_result q jid now t =
      (some r, { q with results := aremove q.results jid }) := by
  simp [wait_for_result, wait_for_result_aux, h]

theorem wait_for_result_not_found (q : JQ) (jid : PyJson) (now t : Int)
    (h : alookup q.results jid = none) :
    wait_for_result q jid now t = (none, q) := by
  simp only [wait_for_result, wait_for_result_aux, h]
  split <;> simp [wait_for_result_aux, h]

/-- Claim C4.  A stored result is returned exactly once: `store_result`
followed by `wait_for_result` with a positive timeout yields the result and
consumes the slot; any further `wait_for_result` for the same id (with no
intervening store) finds nothing, whatever its timeout. -/
theorem result_slot_consumed_once (q : JQ) (jid r : PyJson)
    (now t now' t' : Int) (hkey : hashable jid = true) (ht : 0 < t) :
    (wait_for_result (store_result q jid r) jid now t).1 = some r ∧
    alookup ((wait_for_result (store_result q jid r) jid now t).2).results
      jid = none ∧
    (wait_for_result ((wait_for_result (store_result q jid r) jid now t).2)
      jid now' t').1 = none := by
  have h1 : alookup (store_result q jid r).results jid = some r := by
    simp [store_result, alookup_aset_self]
  rw [wait_for_result_found _ jid now t r h1]
  have h2 : alookup (aremove (store_result q jid r).results jid) jid = none :=
    alookup_aremove_self _ jid
  exact ⟨rfl, h2, by rw [wait_for_result_not_found _ jid now' t' h2]⟩

/-- Witness for C4 at a concrete state. -/
theorem result_slot_consumed_once_witness :
    (wait_for_result (store_result ⟨[], [], []⟩ (.str "j1") (.num 7))
        (.str "j1") 0 5).1 = some (.num 7) ∧
    alookup ((wait_for_result (store_result ⟨[], [], []⟩ (.str "j1") (.num 7))
        (.str "j1") 0 5).2).results (.str "j1") = none ∧
    (wait_for_result
      ((wait_for_result (store_result ⟨[], [], []⟩ (.str "j1") (.num 7))
          (.str "j1") 0 5).2) (.str "j1") 9 9).1 = none :=
  result_slot_consumed_once ⟨[], [], []⟩ (.str "j1") (.num 7) 0 5 9 9
    (by decide) (by decide)

/-- Claim C10.  Both waits test availability before the deadline: with a
non-positive timeout a pending head job (resp. a stored result) is still
returned and consumed, and only an empty mailbox (resp. slot) yields `None`
immediately, with the state unchanged. -/
theorem wait_checks_availability_first (q : JQ) (cid jid : PyJson)
    (now t : Int) (ht : t ≤ 0) :
    (∀ j rest, alookup q.pending cid = some (j :: rest) →
       wait_for_job q cid now t =
         (some j, { q with pending := aset q.pending cid rest })) ∧
    ((alookup q.pending cid = none ∨ alookup q.pending cid = some []) →
       wait_for_job q cid now t = (none, q)) ∧
    (∀ r, alookup q.results jid = some r →
       wait_for_result q jid now t =
         (some r, { q with results := aremove q.results jid })) ∧
    (alookup q.results jid = none →
       wait_for_result q jid now t = (none, q)) := by
  refine ⟨fun j rest h => wait_for_job_found q cid now t j rest h,
    fun h => wait_for_job_empty q cid now t h,
    fun r h => wait_for_result_found q jid now t r h,
    fun h => wait_for_result_not_found q jid now t h⟩

/-- Witness for C10 at a concrete state with timeout `0`: the pending job
and the stored result are returned despite the non-positive timeout, and
the empty client times out immediately. -/
theorem wait_checks_availability_first_witness :
    wait_for_job ⟨[(.str "studio", [.num 1])], [(.str "j1", .num 2)], []⟩
        (.str "studio") 100 0 =
      (some (.num 1), ⟨[(.str "studio", [])], [(.str "j1", .num 2)], []⟩) ∧
    wait_for_result ⟨[(.str "studio", [.num 1])], [(.str "j1", .num 2)], []⟩
        (.str "j1") 100 0 =
      (some (.num 2), ⟨[(.str "studio", [.num 1])], [], []⟩) ∧
    wait_for_job ⟨[(.str "studio", [.num 1])], [(.str "j1", .num 2)], []⟩
        (.str "other") 100 0 =
      (none, ⟨[(.str "studio", [.num 1])], [(.str "j1", .num 2)], []⟩) := by
  have h := wait_checks_availability_first
    ⟨[(.str "studio", [.num 1])], [(.str "j1", .num 2)], []⟩
    (.str "studio") (.str "j1") 100 0 (by decide)
  have h2 := wait_checks_availability_first
    ⟨[(.str "studio", [.num 1])], [(.str "j1", .num 2)], []⟩
    (.str "other") (.str "j1") 100 0 (by decide)
  exact ⟨h.1 (.num 1) [] rfl, h.2.2.1 (.num 2) rfl, h2.2.1 (Or.inl rfl)⟩

/-- Claim C1.  For a tool call that resolves in the catalog, with the
client connected, whose minted job is matched by an uploaded result with
the same `job_id` and `ok = true`, `_call_tool` returns the success
envelope `\x7bcontent: [\x7btype: "text", text: t\x7d]\x7d` (see
`tool_result`) where `t` is exactly
`json.dumps(result["result"], ensure_ascii=False, indent=2)` (see
`dumps2`): two-space indentation, non-ASCII preserved. -/
theorem dispatcher_success_envelope (q : JQ) (akvs rkvs : List (String × PyJson))
    (n jt jid : String) (polls : Nat) (now T : Int)
    (htool : alookup tool_to_job n = some jt)
    (hconn : is_connected q (pyOr (dictGet akvs "client_id") (.str "studio"))
      now = true)
    (hok : alookup rkvs "ok" = some (.bool true)) :
    (call_tool q ⟨polls, some (.obj rkvs)⟩ now jid T (.str n) (.obj akvs)).map
      Prod.fst = .ok (tool_result (dictGet rkvs "result")) := by
  have hne : (PyJson.str n) ≠ PyJson.str "studio_get_connection_status" := by
    intro hh
    injection hh with hh'
    rw [hh'] at htool
    have h0 : alookup tool_to_job "studio_get_connection_status" = none := rfl
    rw [h0] at htool
    exact Option.noConfusion htool
  simp only [call_tool, hne, if_false, hconn, if_true, build_job, htool,
    dispatch_job]
  rw [wait_for_result_found _ (.str jid) now T (.obj rkvs)
    (by simp [store_result, alookup_aset_self])]
  simp [hok, PyJson.truthy, Except.map]

/-- Witness for C1: a concrete connected queue, a result carrying a
non-ASCII payload; the envelope text is the exact two-space-indented dump
with the non-ASCII character unescaped. -/
theorem dispatcher_success_envelope_witness :
    (call_tool ⟨[], [], [(.str "studio", 0)]⟩
      ⟨0, some (.obj [("job_id", .str "job_ab"), ("ok", .bool true),
        ("result", .obj [("msg", .str "héllo")])])⟩ 1 "job_ab" 30
      (.str "roblox_list_services") (.obj [])).map Prod.fst =
    .ok (.obj [("content", .arr [.obj [("type", .str "text"),
      ("text", .str "\x7b\n  \"msg\": \"héllo\"\n\x7d")]])]) := by
  have h := dispatcher_success_envelope ⟨[], [], [(.str "studio", 0)]⟩ []
    [("job_id", .str "job_ab"), ("ok", .bool true),
     ("result", .obj [("msg", .str "héllo")])]
    "roblox_list_services" "list_services" "job_ab" 0 1 30 rfl (by decide) rfl
  exact h.trans (by rfl)

/-- Whether a value is a JSON object (a Python dict). -/
def isObjJson : PyJson → Bool
  | .obj _ => true
  | _ => false

/-- Every entry of a mailbox is a dict (true of every reachable state:
only `_build_job` products are enqueued). -/
def all_objs (l : List PyJson) : Bool := l.all isObjJson

def wf_pending (q : JQ) : Bool := q.pending.all (fun p => all_objs p.2)

/-- `job.get("job_id") == job_id` as tested by `cancel_job`’s scan. -/
def job_id_is (jid : PyJson) (j : PyJson) : Bool :=
  match j with
  | .obj kvs => decide ((alookup kvs "job_id").getD .null = jid)
  | _ => false

def count_jobs_in (jid : PyJson) (l : List PyJson) : Nat :=
  (l.filter (job_id_is jid)).length

/-- Sum of `count_jobs_in` over a pending table. -/
def count_pending (jid : PyJson) (l : List (PyJson × List PyJson)) : Nat :=
  (l.map (fun p => count_jobs_in jid p.2)).sum

/-- Number of pending jobs, across all mailboxes, whose `job_id` is `jid`. -/
def count_jobs (q : JQ) (jid : PyJson) : Nat :=
  count_pending jid q.pending

theorem count_jobs_in_append (jid : PyJson) (l : List PyJson) (j : PyJson) :
    count_jobs_in jid (l ++ [j]) =
      count_jobs_in jid l + (if job_id_is jid j then 1 else 0) := by
  simp only [count_jobs_in, List.filter_append, List.length_append]
  by_cases h : job_id_is jid j <;> simp [h]

theorem count_jobs_in_cons (jid : PyJson) (j : PyJson) (l : List PyJson) :
    count_jobs_in jid (j :: l) =
      (if job_id_is jid j then 1 else 0) + count_jobs_in jid l := by
  simp only [count_jobs_in, List.filter_cons]
  by_cases h : job_id_is jid j <;> simp [h] <;> omega

theorem count_pending_enqueue (l : List (PyJson × List PyJson))
    (cid j jid : PyJson) :
    count_pending jid (aset l cid (((alookup l cid).getD []) ++ [j])) =
      count_pending jid l + (if job_id_is jid j then 1 else 0) := by
  induction l with
  | nil =>
    simp [aset, alookup, count_pending, count_jobs_in, List.filter_cons]
    by_cases h : job_id_is jid j <;> simp [h]
  | cons hd tl ih =>
    obtain ⟨c, queue⟩ := hd
    by_cases hc : c = cid
    · subst hc
      simp [aset, alookup, count_pending, count_jobs_in_append]
      omega
    · simp [aset, alookup, hc, count_pending] at *
      omega

theorem count_jobs_enqueue (q : JQ) (cid j jid : PyJson) :
    count_jobs (enqueue q cid j) jid =
      count_jobs q jid + (if job_id_is jid j then 1 else 0) :=
  count_pending_enqueue q.pending cid j jid

theorem count_pending_aset_tail (l : List (PyJson × List PyJson))
    (cid j jid : PyJson) (rest : List PyJson)
    (h : alookup l cid = some (j :: rest)) :
    count_pending jid (aset l cid rest) ≤ count_pending jid l := by
  induction l with
  | nil => simp [alookup] at h
  | cons hd tl ih =>
    obtain ⟨c, queue⟩ := hd
    by_cases hc : c = cid
    · subst hc
      simp [alookup] at h
      subst h
      simp [aset, count_pending, count_jobs_in_cons]
    · simp only [alookup, hc, if_false] at h
      simp [aset, hc, count_pending] at *
      exact ih h

theorem count_jobs_poll_le (q : JQ) (cid jid : PyJson) :
    count_jobs (pluginPoll q cid) jid ≤ count_jobs q jid := by
  unfold pluginPoll
  rcases h : alookup q.pending cid with _ | ⟨_ | ⟨j, rest⟩⟩
  · exact Nat.le_refl _
  · exact Nat.le_refl _
  · exact count_pending_aset_tail q.pending cid j jid rest h

theorem count_jobs_polls_le (n : Nat) (q : JQ) (cid jid : PyJson) :
    count_jobs (pluginPolls n q cid) jid ≤ count_jobs q jid := by
  induction n generalizing q with
  | zero => exact Nat.le_refl _
  | succ n ih =>
    exact Nat.le_trans (ih (pluginPoll q cid)) (count_jobs_poll_le q cid jid)

theorem all_aset {α β : Type} [DecidableEq α] (l : List (α × β)) (k : α)
    (v : β) (P : α × β → Bool) (hl : l.all P = true) (hv : P (k, v) = true) :
    (aset l k v).all P = true := by
  induction l with
  | nil => simp [aset, hv]
  | cons hd tl ih =>
    simp only [List.all_cons, Bool.and_eq_true] at hl
    by_cases hk : hd.1 = k
    · rcases hd with ⟨a, b⟩
      simp only at hk
      simp [aset, hk, hv, hl.2]
    · rcases hd with ⟨a, b⟩
      simp only at hk
      simp [aset, hk, hl.1, ih hl.2]

theorem all_alookup {α β : Type} [DecidableEq α] (l : List (α × β)) (k : α)
    (v : β) (P : α × β → Bool) (hl : l.all P = true)
    (h : alookup l k = some v) : P (k, v) = true := by
  induction l with
  | nil => simp [alookup] at h
  | cons hd tl ih =>
    simp only [List.all_cons, Bool.and_eq_true] at hl
    rcases hd with ⟨a, b⟩
    by_cases hk : a = k
    · subst hk
      simp [alookup] at h
      subst h
      exact hl.1
    · simp only [alookup, hk, if_false] at h
      exact ih hl.2 h

theorem wf_pending_enqueue (q : JQ) (cid j : PyJson)
    (hwf : wf_pending q = true) (hj : isObjJson j = true) :
    wf_pending (enqueue q cid j) = true := by
  apply all_aset _ _ _ _ hwf
  rcases h : alookup q.pending cid with _ | queue
  · simp [all_objs, hj]
  · have := all_alookup q.pending cid queue _ hwf h
    simp only [all_objs, List.all_append, List.all_cons, List.all_nil,
      Bool.and_eq_true]
    exact ⟨this, by simp [hj]⟩

theorem wf_pending_poll (q : JQ) (cid : PyJson)
    (hwf : wf_pending q = true) : wf_pending (pluginPoll q cid) = true := by
  unfold pluginPoll
  rcases h : alookup q.pending cid with _ | ⟨_ | ⟨j, rest⟩⟩
  · exact hwf
  · exact hwf
  · apply all_aset _ _ _ _ hwf
    have := all_alookup q.pending cid _ _ hwf h
    simp only [all_objs, List.all_cons, Bool.and_eq_true] at this ⊢
    exact this.2

theorem wf_pending_polls (n : Nat) (q : JQ) (cid : PyJson)
    (hwf : wf_pending q = true) : wf_pending (pluginPolls n q cid) = true := by
  induction n generalizing q with
  | zero => exact hwf
  | succ n ih => exact ih (pluginPoll q cid) (wf_pending_poll q cid hwf)

theorem enqueue_results (q : JQ) (cid j : PyJson) :
    (enqueue q cid j).results = q.results := rfl

theorem poll_results (q : JQ) (cid : PyJson) :
    (pluginPoll q cid).results = q.results := by
  unfold pluginPoll
  rcases h : alookup q.pending cid with _ | ⟨_ | _⟩ <;> rfl

theorem polls_results (n : Nat) (q : JQ) (cid : PyJson) :
    (pluginPolls n q cid).results = q.results := by
  induction n generalizing q with
  | zero => rfl
  | succ n ih => rw [pluginPolls, ih, poll_results]

theorem remove_first_job_spec (jid : PyJson) (l : List PyJson)
    (hwf : all_objs l = true) :
    (remove_first_job l jid = .ok none ∧ count_jobs_in jid l = 0) ∨
    (∃ l', remove_first_job l jid = .ok (some l') ∧ all_objs l' = true ∧
      count_jobs_in jid l' + 1 = count_jobs_in jid l) := by
  induction l with
  | nil => exact Or.inl ⟨rfl, rfl⟩
  | cons j rest ih =>
    simp only [all_objs, List.all_cons, Bool.and_eq_true] at hwf
    obtain ⟨hj1, hrest⟩ := hwf
    rcases j with _ | _ | _ | _ | _ | kvs <;> simp [isObjJson] at hj1
    by_cases hj : (alookup kvs "job_id").getD .null = jid
    · refine Or.inr ⟨rest, ?_, hrest, ?_⟩
      · simp [remove_first_job, hj]
      · simp [count_jobs_in_cons, job_id_is, hj]
        omega
    · rcases ih hrest with ⟨hrem, hcount⟩ | ⟨l', hrem, hwl, hcount⟩
      · refine Or.inl ⟨?_, ?_⟩
        · simp [remove_first_job, hj, hrem, Except.map, Option.map]
        · simp [count_jobs_in_cons, job_id_is, hj, hcount]
      · refine Or.inr ⟨.obj kvs :: l', ?_, ?_, ?_⟩
        · simp [remove_first_job, hj, hrem, Except.map, Option.map]
        · simp only [all_objs, List.all_cons, Bool.and_eq_true]
          exact ⟨rfl, hwl⟩
        · simp [count_jobs_in_cons, job_id_is, hj]
          omega

theorem cancel_scan_spec (jid : PyJson) (l : List (PyJson × List PyJson))
    (hwf : l.all (fun p => all_objs p.2) = true) :
    (cancel_scan l jid = .ok none ∧ count_pending jid l = 0) ∨
    (∃ l', cancel_scan l jid = .ok (some l') ∧
      count_pending jid l' + 1 = count_pending jid l) := by
  induction l with
  | nil => exact Or.inl ⟨rfl, rfl⟩
  | cons hd tl ih =>
    obtain ⟨c, queue⟩ := hd
    simp only [List.all_cons, Bool.and_eq_true] at hwf
    obtain ⟨hq, htl⟩ := hwf
    rcases remove_first_job_spec jid queue hq with ⟨hrem, hcnt⟩ |
      ⟨q', hrem, hwq, hcnt⟩
    · rcases ih htl with ⟨hscan, hc⟩ | ⟨l', hscan, hc⟩
      · exact Or.inl ⟨by simp [cancel_scan, hrem, hscan, Except.map, Option.map],
          by simp [count_pending, hcnt, hc] at *; simp [count_pending, hcnt, hc]⟩
      · refine Or.inr ⟨(c, queue) :: l',
          by simp [cancel_scan, hrem, hscan, Except.map, Option.map], ?_⟩
        simp [count_pending] at *
        omega
    · refine Or.inr ⟨(c, q') :: tl, by simp [cancel_scan, hrem], ?_⟩
      simp [count_pending] at *
      omega

theorem count_jobs_cancel (q : JQ) (jid : PyJson)
    (hwf : wf_pending q = true) (hle : count_jobs q jid ≤ 1) :
    ∃ b q', cancel_job q jid = .ok (b, q') ∧ count_jobs q' jid = 0 := by
  rcases cancel_scan_spec jid q.pending hwf with ⟨hscan, hc⟩ | ⟨l', hscan, hc⟩
  · exact ⟨false, q, by simp [cancel_job, hscan], hc⟩
  · refine ⟨true, { q with pending := l' }, by simp [cancel_job, hscan], ?_⟩
    simp only [count_jobs] at *
    omega

theorem dispatch_job_timeout (q : JQ) (cid job : PyJson) (jid : String)
    (polls : Nat) (now T : Int)
    (hjobobj : isObjJson job = true)
    (hjobid : job_id_is (.str jid) job = true)
    (hwf : wf_pending q = true)
    (hfresh : count_jobs q (.str jid) = 0)
    (hnores : alookup q.results (.str jid) = none) :
    ∃ q', dispatch_job q ⟨polls, none⟩ now jid T cid job =
        .ok (tool_error timeoutMsg, q') ∧ count_jobs q' (.str jid) = 0 := by
  have hq1wf : wf_pending (enqueue q cid job) = true :=
    wf_pending_enqueue q cid job hwf hjobobj
  have hq2wf : wf_pending (pluginPolls polls (enqueue q cid job) cid) = true :=
    wf_pending_polls _ _ _ hq1wf
  have hq1cnt : count_jobs (enqueue q cid job) (.str jid) = 1 := by
    rw [count_jobs_enqueue, hfresh, if_pos hjobid]
  have hq2cnt :
      count_jobs (pluginPolls polls (enqueue q cid job) cid) (.str jid) ≤ 1 :=
    hq1cnt ▸ count_jobs_polls_le polls _ cid _
  have hres :
      alookup (pluginPolls polls (enqueue q cid job) cid).results (.str jid) =
        none := by
    rw [polls_results, enqueue_results]
    exact hnores
  obtain ⟨b, q', hcancel, hcnt'⟩ := count_jobs_cancel _ _ hq2wf hq2cnt
  refine ⟨q', ?_, hcnt'⟩
  simp only [dispatch_job]
  rw [wait_for_result_not_found _ _ now T hres]
  simp [hcancel]

/-- Claim C2.  For a resolving tool call on a connected client whose fresh
job never receives a result before the dispatcher’s deadline (whatever the
plugin’s polling activity), `_call_tool` returns exactly the fixed timeout
error envelope, and afterwards no pending mailbox holds a job with the
minted `job_id` (cancel removed it if it was still queued). -/
theorem dispatcher_timeout_cancels (q : JQ) (akvs : List (String × PyJson))
    (n jt jid : String) (polls : Nat) (now T : Int)
    (htool : alookup tool_to_job n = some jt)
    (hconn : is_connected q (pyOr (dictGet akvs "client_id") (.str "studio"))
      now = true)
    (hwf : wf_pending q = true)
    (hfresh : count_jobs q (.str jid) = 0)
    (hnores : alookup q.results (.str jid) = none) :
    ∃ q', call_tool q ⟨polls, none⟩ now jid T (.str n) (.obj akvs) =
        .ok (tool_error timeoutMsg, q') ∧ count_jobs q' (.str jid) = 0 := by
  have hne : (PyJson.str n) ≠ PyJson.str "studio_get_connection_status" := by
    intro hh
    injection hh with hh'
    rw [hh'] at htool
    have h0 : alookup tool_to_job "studio_get_connection_status" = none := rfl
    rw [h0] at htool
    exact Option.noConfusion htool
  simp only [call_tool, hne, if_false, hconn, if_true, build_job, htool]
  exact dispatch_job_timeout q _ _ jid polls now T rfl
    (by simp [job_id_is, alookup]) hwf hfresh hnores

/-- Witness for C2 at a concrete connected state. -/
theorem dispatcher_timeout_cancels_witness :
    ∃ q', call_tool ⟨[], [], [(.str "studio", 0)]⟩ ⟨0, none⟩ 1 "job_w2" 30
        (.str "roblox_undo") (.obj []) = .ok (tool_error timeoutMsg, q') ∧
      count_jobs q' (.str "job_w2") = 0 :=
  dispatcher_timeout_cancels ⟨[], [], [(.str "studio", 0)]⟩ [] "roblox_undo"
    "undo" "job_w2" 0 1 30 rfl (by decide) rfl rfl rfl

/-- The `args` field of a minted job. -/
def job_args_of (j : PyJson) : PyJson :=
  match j with
  | .obj kvs => dictGet kvs "args"
  | _ => .null

/-- Counterexample to C6 as stated.  With `script` present but equal to
`""` (present, hence not absent) and `source` present, the claim says the
minted `args.code` is taken from `args.script`; the code instead tests
Python truthiness (`job_args.get("script") or job_args.get("source")`) and
takes `args.source`: the job’s `args.code` is `"x"`, not `""`. -/
theorem aliasing_empty_script_counterexample :
    build_job "job_x" 0 (.str "roblox_run_code")
        [("script", .str ""), ("source", .str "x")] =
      some (.obj [("job_id", .str "job_x"), ("type", .str "run_code"),
        ("args", .obj [("script", .str ""), ("source", .str "x"),
                       ("code", .str "x")]),
        ("created_at", .num 0)]) ∧
    (PyJson.str "x") ≠ (PyJson.str "") :=
  ⟨rfl, by decide⟩

/-- Claim C6 (amended).  For the job types `run_code` and
`run_script_in_play_mode`, when `args.code` is absent *or falsy*, the
minted `args.code` becomes `args.script or args.source` under Python
truthiness: the value of `args.script` when that is truthy, otherwise the
value of `args.source` whatever it is — Python `or` returns its last
operand, so a falsy `source` is passed through as-is (e.g. `""` stays
`""`; `null` only when `source` reads as `None`, in particular when
absent).  Other keys are unchanged; when `args.code` is truthy, and for
every other job type, the arguments are forwarded verbatim as `args`. -/
theorem aliasing_truthiness (akvs : List (String × PyJson))
    (n jt jid : String) (now : Int)
    (htool : alookup tool_to_job n = some jt) :
    (¬ (jt = "run_code" ∨ jt = "run_script_in_play_mode") →
      ∃ j, build_job jid now (.str n) akvs = some j ∧
        job_args_of j = .obj akvs) ∧
    ((jt = "run_code" ∨ jt = "run_script_in_play_mode") →
      ((dictGet akvs "code").truthy = true →
        ∃ j, build_job jid now (.str n) akvs = some j ∧
          job_args_of j = .obj akvs) ∧
      ((dictGet akvs "code").truthy = false →
        ∃ j, build_job jid now (.str n) akvs = some j ∧
          ∃ akvs', job_args_of j = .obj akvs' ∧
            dictGet akvs' "code" =
              pyOr (dictGet akvs "script") (dictGet akvs "source") ∧
            ∀ k, k ≠ "code" → dictGet akvs' k = dictGet akvs k)) := by
  refine ⟨fun hjt => ?_, fun hjt => ⟨fun hcode => ?_, fun hcode => ?_⟩⟩
  · refine ⟨.obj [("job_id", .str jid), ("type", .str jt),
      ("args", .obj akvs), ("created_at", .num now)], ?_, ?_⟩
    · simp [build_job, htool, hjt]
    · simp [job_args_of, dictGet, alookup]
  · refine ⟨.obj [("job_id", .str jid), ("type", .str jt),
      ("args", .obj akvs), ("created_at", .num now)], ?_, ?_⟩
    · simp [build_job, htool, hjt, hcode]
    · simp [job_args_of, dictGet, alookup]
  · refine ⟨.obj [("job_id", .str jid), ("type", .str jt),
      ("args", .obj (aset akvs "code"
        (pyOr (dictGet akvs "script") (dictGet akvs "source")))),
      ("created_at", .num now)], ?_,
      aset akvs "code" (pyOr (dictGet akvs "script") (dictGet akvs "source")),
      ?_, ?_, ?_⟩
    · simp [build_job, htool, hjt, hcode]
    · simp [job_args_of, dictGet, alookup]
    · simp [dictGet, alookup_aset_self]
    · intro k hk
      simp [dictGet, alookup_aset_ne _ _ _ _ hk]

/-- Witness for C6 (amended), at the spec’s S5 instance: calling
`roblox_run_code` with `\x7b"script": "print(1)"\x7d` mints a job whose
`args.code` is `"print(1)"`. -/
theorem aliasing_truthiness_witness :
    ∃ j, build_job "job_w6" 0 (.str "roblox_run_code")
        [("script", .str "print(1)")] = some j ∧
      ∃ akvs', job_args_of j = .obj akvs' ∧
        dictGet akvs' "code" = .str "print(1)" ∧
        ∀ k, k ≠ "code" →
          dictGet akvs' k = dictGet [("script", .str "print(1)")] k :=
  ((aliasing_truthiness [("script", .str "print(1)")] "roblox_run_code"
    "run_code" "job_w6" 0 rfl).2 (Or.inl rfl)).2 (by decide)

/-- Counterexample to C5 as stated: a stdio `initialize` request *without*
an `id` (a notification) is nevertheless answered — `_handle_request` sends
the `initialize` reply unconditionally, with `"id": null` (only the
unknown-method branch checks `msg_id is not None`).  The claim requires no
reply (`[]`) to be emitted. -/
theorem initialize_without_id_replies :
    handle_request ⟨[], [], []⟩ ⟨0, none⟩ 0 "j" 30
        (.obj [("jsonrpc", .str "2.0"), ("method", .str "initialize")]) =
      .ok ([rpc_result .null init_result], ⟨[], [], []⟩) ∧
    [rpc_result .null init_result] ≠ ([] : List PyJson) :=
  ⟨rfl, by decide⟩

/-- Claim C5 (amended).  For a stdio request without an `id` (or with
`id: null` — `msg.get("id")` conflates the two): `initialize`,
`tools/list` and `tools/call` are answered anyway, with `"id": null` in the
reply; no reply is emitted only for `notifications/initialized` and for
unrecognized methods. -/
theorem id_null_reply_behavior (q : JQ) (env : CallEnv) (now : Int)
    (jid : String) (T : Int) (kvs : List (String × PyJson))
    (hid : dictGet kvs "id" = .null) :
    (dictGet kvs "method" = .str "initialize" →
      handle_request q env now jid T (.obj kvs) =
        .ok ([rpc_result .null init_result], q)) ∧
    (dictGet kvs "method" = .str "notifications/initialized" →
      handle_request q env now jid T (.obj kvs) = .ok ([], q)) ∧
    (dictGet kvs "method" = .str "tools/list" →
      handle_request q env now jid T (.obj kvs) =
        .ok ([rpc_result .null (.obj [("tools", .arr build_tools)])], q)) ∧
    (dictGet kvs "method" = .str "tools/call" →
      ∀ outs q', handle_request q env now jid T (.obj kvs) = .ok (outs, q') →
        ∃ res, outs = [rpc_result .null res]) ∧
    (dictGet kvs "method" ≠ .str "initialize" →
     dictGet kvs "method" ≠ .str "notifications/initialized" →
     dictGet kvs "method" ≠ .str "tools/list" →
     dictGet kvs "method" ≠ .str "tools/call" →
      handle_request q env now jid T (.obj kvs) = .ok ([], q)) := by
  refine ⟨fun h => ?_, fun h => ?_, fun h => ?_, fun h => ?_,
    fun h1 h2 h3 h4 => ?_⟩
  · simp [handle_request, h, hid]
  · simp [handle_request, h, hid]
  · simp [handle_request, h, hid]
  · intro outs q' hrun
    simp only [handle_request, h, hid] at hrun
    rw [if_neg (by decide), if_neg (by decide), if_neg (by decide),
      if_pos (by decide)] at hrun
    split at hrun
    all_goals try exact Except.noConfusion hrun
    split at hrun
    all_goals try exact Except.noConfusion hrun
    simp only [Except.ok.injEq, Prod.mk.injEq] at hrun
    exact ⟨_, hrun.1.symm⟩
  · simp [handle_request, h1, h2, h3, h4, hid]

/-- Witness for C5 (amended) at concrete id-less requests. -/
theorem id_null_reply_behavior_witness :
    handle_request ⟨[], [], []⟩ ⟨0, none⟩ 0 "j" 30
        (.obj [("method", .str "initialize")]) =
      .ok ([rpc_result .null init_result], ⟨[], [], []⟩) ∧
    handle_request ⟨[], [], []⟩ ⟨0, none⟩ 0 "j" 30
        (.obj [("method", .str "notifications/initialized")]) =
      .ok ([], ⟨[], [], []⟩) ∧
    handle_request ⟨[], [], []⟩ ⟨0, none⟩ 0 "j" 30
        (.obj [("method", .str "ping")]) = .ok ([], ⟨[], [], []⟩) := by
  have h1 := id_null_reply_behavior ⟨[], [], []⟩ ⟨0, none⟩ 0 "j" 30
    [("method", .str "initialize")] rfl
  have h2 := id_null_reply_behavior ⟨[], [], []⟩ ⟨0, none⟩ 0 "j" 30
    [("method", .str "notifications/initialized")] rfl
  have h3 := id_null_reply_behavior ⟨[], [], []⟩ ⟨0, none⟩ 0 "j" 30
    [("method", .str "ping")] rfl
  exact ⟨h1.1 rfl, h2.2.1 rfl,
    h3.2.2.2.2 (by decide) (by decide) (by decide) (by decide)⟩

/-- Counterexample to C7 as stated: a body that is valid JSON but not an
object (here the number `5`) is claimed to get HTTP 400 `missing_job_id`;
the handler instead calls `payload.get("job_id")` on a non-dict, raising an
uncaught `AttributeError` — no JSON error response is sent. -/
theorem post_result_non_object_counterexample :
    do_post_result ⟨[], [], []⟩ (some (.num 5)) =
      (.exn "AttributeError", ⟨[], [], []⟩) ∧
    HttpOutcome.exn "AttributeError" ≠
      .resp 400 (.obj [("ok", .bool false), ("error", .str "missing_job_id")]) :=
  ⟨rfl, by decide⟩

/-- Claim C7 (amended).  For every POST to `/result`: a non-JSON body gets
400 `invalid_json`; a JSON *object* whose `job_id` is absent or falsy gets
400 `missing_job_id`; a JSON non-object raises an uncaught
`AttributeError` (no response); an object with a truthy but unhashable
`job_id` (array/object) raises `TypeError` in the store; otherwise
`store_result(job_id, body)` runs and the response is 200
`\x7b"ok": true\x7d`. -/
theorem post_result_behavior (q : JQ) :
    do_post_result q none =
      (.resp 400 (.obj [("ok", .bool false), ("error", .str "invalid_json")]),
        q) ∧
    (∀ kvs, (dictGet kvs "job_id").truthy = false →
      do_post_result q (some (.obj kvs)) =
        (.resp 400 (.obj [("ok", .bool false),
          ("error", .str "missing_job_id")]), q)) ∧
    (∀ v, isObjJson v = false →
      do_post_result q (some v) = (.exn "AttributeError", q)) ∧
    (∀ kvs, (dictGet kvs "job_id").truthy = true →
      hashable (dictGet kvs "job_id") = false →
      do_post_result q (some (.obj kvs)) = (.exn "TypeError", q)) ∧
    (∀ kvs, (dictGet kvs "job_id").truthy = true →
      hashable (dictGet kvs "job_id") = true →
      do_post_result q (some (.obj kvs)) =
        (.resp 200 (.obj [("ok", .bool true)]),
          store_result q (dictGet kvs "job_id") (.obj kvs))) := by
  refine ⟨rfl, fun kvs h => ?_, fun v hv => ?_, fun kvs h1 h2 => ?_,
    fun kvs h1 h2 => ?_⟩
  · simp [do_post_result, h]
  · rcases v with _ | _ | _ | _ | _ | kvs <;> simp [isObjJson] at hv <;>
      rfl
  · simp [do_post_result, h1, h2]
  · simp [do_post_result, h1, h2]

/-- Witness for C7 (amended) at concrete bodies. -/
theorem post_result_behavior_witness :
    do_post_result ⟨[], [], []⟩ none =
      (.resp 400 (.obj [("ok", .bool false), ("error", .str "invalid_json")]),
        ⟨[], [], []⟩) ∧
    do_post_result ⟨[], [], []⟩ (some (.obj [("no", .str "id")])) =
      (.resp 400 (.obj [("ok", .bool false), ("error", .str "missing_job_id")]),
        ⟨[], [], []⟩) ∧
    do_post_result ⟨[], [], []⟩ (some (.str "not an object")) =
      (.exn "AttributeError", ⟨[], [], []⟩) ∧
    do_post_result ⟨[], [], []⟩
        (some (.obj [("job_id", .str "j7"), ("ok", .bool true)])) =
      (.resp 200 (.obj [("ok", .bool true)]),
        store_result ⟨[], [], []⟩ (.str "j7")
          (.obj [("job_id", .str "j7"), ("ok", .bool true)])) := by
  have h := post_result_behavior ⟨[], [], []⟩
  exact ⟨h.1, h.2.1 [("no", .str "id")] rfl, h.2.2.1 (.str "not an object") rfl,
    h.2.2.2.2 [("job_id", .str "j7"), ("ok", .bool true)] rfl rfl⟩

/-- Counterexample to C8 as stated: uploading a result for a `job_id` that
was never minted or enqueued (the queue is completely empty) is *not*
dropped — `store_result` stores unconditionally and the entry is retained
in the result store. -/
theorem unknown_result_retained_counterexample :
    alookup ((do_post_result ⟨[], [], []⟩
        (some (.obj [("job_id", .str "zzz"),
          ("ok", .bool true)]))).2).results (.str "zzz") =
      some (.obj [("job_id", .str "zzz"), ("ok", .bool true)]) ∧
    some (.obj [("job_id", .str "zzz"), ("ok", .bool true)]) ≠
      (none : Option PyJson) :=
  ⟨rfl, by decide⟩

/-- Claim C8 (amended).  A result uploaded for a completely unknown
`job_id` — none pending anywhere and no stored result — is accepted by the
transport (HTTP 200) and stored unconditionally: the result store retains
the entry (it leaks until process exit, since no dispatcher waits on that
id). -/
theorem result_store_unconditional (q : JQ) (kvs : List (String × PyJson))
    (j : PyJson) (hj : dictGet kvs "job_id" = j) (htr : j.truthy = true)
    (hh : hashable j = true) (hfresh : count_jobs q j = 0)
    (hnores : alookup q.results j = none) :
    do_post_result q (some (.obj kvs)) =
      (.resp 200 (.obj [("ok", .bool true)]), store_result q j (.obj kvs)) ∧
    alookup (store_result q j (.obj kvs)).results j = some (.obj kvs) := by
  subst hj
  exact ⟨by simp [do_post_result, htr, hh], by
    simp [store_result, alookup_aset_self]⟩

/-- Witness for C8 (amended) on the empty queue. -/
theorem result_store_unconditional_witness :
    do_post_result ⟨[], [], []⟩
        (some (.obj [("job_id", .str "zz"), ("ok", .bool true)])) =
      (.resp 200 (.obj [("ok", .bool true)]),
        store_result ⟨[], [], []⟩ (.str "zz")
          (.obj [("job_id", .str "zz"), ("ok", .bool true)])) ∧
    alookup (store_result ⟨[], [], []⟩ (.str "zz")
        (.obj [("job_id", .str "zz"), ("ok", .bool true)])).results
      (.str "zz") = some (.obj [("job_id", .str "zz"), ("ok", .bool true)]) :=
  result_store_unconditional ⟨[], [], []⟩
    [("job_id", .str "zz"), ("ok", .bool true)] (.str "zz") rfl rfl rfl rfl rfl

theorem any_key_false_of_alookup_none {β : Type} (l : List (String × β))
    (k : String) (h : alookup l k = none) :
    (l.any (fun kv => decide (kv.1 = k))) = false := by
  induction l with
  | nil => rfl
  | cons hd tl ih =>
    obtain ⟨a, b⟩ := hd
    by_cases ha : a = k
    · simp [alookup, ha] at h
    · simp only [alookup, ha, if_false] at h
      simp [ha, ih h]

/-- Counterexample to C9 as stated: the line `"1"` parses to the JSON
number `1`; `"method" in msg` on an `int` raises an uncaught `TypeError`,
aborting `McpServer.run` — the following well-formed `initialize` line is
never processed and no output is emitted.  The claim requires no exception
and continued processing. -/
theorem run_loop_typeerror_counterexample :
    run_loop ⟨[], [], []⟩ 30
        [⟨"1", some (.num 1), ⟨0, none⟩, 0, "j"⟩,
         ⟨"\x7b\"method\":\"initialize\",\"id\":1\x7d",
          some (.obj [("method", .str "initialize"), ("id", .num 1)]),
          ⟨0, none⟩, 0, "j"⟩] = .error "TypeError" ∧
    (Except.error "TypeError" :
        Except String (List PyJson × JQ)) ≠
      .ok ([rpc_result (.num 1) init_result], ⟨[], [], []⟩) :=
  ⟨rfl, fun h => Except.noConfusion h⟩

/-- Claim C9 (amended).  Blank lines, un-parseable lines, JSON objects
without a `method` key, JSON arrays not containing the string `"method"`,
and JSON strings not containing `"method"` as a substring are silently
skipped with no output and no exception.  But a non-blank line parsing to
a JSON number, boolean, or null makes `"method" in msg` raise an uncaught
`TypeError` (Python `in` on a non-container), which terminates the loop. -/
theorem run_step_behavior (q : JQ) (env : CallEnv) (now : Int) (jid : String)
    (T : Int) (line : String) :
    (strip line = "" →
      ∀ parsed, run_step q env now jid T line parsed = .ok ([], q)) ∧
    (run_step q env now jid T line none = .ok ([], q)) ∧
    (∀ kvs, alookup kvs "method" = none →
      run_step q env now jid T line (some (.obj kvs)) = .ok ([], q)) ∧
    (∀ xs, (PyJson.str "method") ∉ xs →
      run_step q env now jid T line (some (.arr xs)) = .ok ([], q)) ∧
    (∀ s, containsSub s "method" = false →
      run_step q env now jid T line (some (.str s)) = .ok ([], q)) ∧
    (strip line ≠ "" → ∀ n : Int,
      run_step q env now jid T line (some (.num n)) = .error "TypeError") ∧
    (strip line ≠ "" → ∀ b : Bool,
      run_step q env now jid T line (some (.bool b)) = .error "TypeError") ∧
    (strip line ≠ "" →
      run_step q env now jid T line (some .null) = .error "TypeError") := by
  refine ⟨fun hb parsed => by simp [run_step, hb], ?_, fun kvs hm => ?_,
    fun xs hm => ?_, fun s hm => ?_, fun hb n => by simp [run_step, hb, method_in],
    fun hb b => by simp [run_step, hb, method_in],
    fun hb => by simp [run_step, hb, method_in]⟩
  · by_cases hb : strip line = "" <;> simp [run_step, hb]
  · have hany := any_key_false_of_alookup_none kvs "method" hm
    by_cases hb : strip line = "" <;> simp [run_step, hb, method_in, hany]
  · have hany : (xs.any (fun x => decide (x = .str "method"))) = false := by
      simp only [List.any_eq_false, decide_eq_false_iff_not]
      intro x hx hxe
      exact hm ((of_decide_eq_true hxe) ▸ hx)
    by_cases hb : strip line = "" <;> simp [run_step, hb, method_in, hany]
  · by_cases hb : strip line = "" <;> simp [run_step, hb, method_in, hm]

/-- Witness for C9 (amended) at concrete lines. -/
theorem run_step_behavior_witness :
    run_step ⟨[], [], []⟩ ⟨0, none⟩ 0 "j" 30 "   " (some (.num 3)) =
      .ok ([], ⟨[], [], []⟩) ∧
    run_step ⟨[], [], []⟩ ⟨0, none⟩ 0 "j" 30 "not json" none =
      .ok ([], ⟨[], [], []⟩) ∧
    run_step ⟨[], [], []⟩ ⟨0, none⟩ 0 "j" 30 "\x7b\"a\":1\x7d"
      (some (.obj [("a", .num 1)])) = .ok ([], ⟨[], [], []⟩) ∧
    run_step ⟨[], [], []⟩ ⟨0, none⟩ 0 "j" 30 "\"harmless\""
      (some (.str "harmless")) = .ok ([], ⟨[], [], []⟩) ∧
    run_step ⟨[], [], []⟩ ⟨0, none⟩ 0 "j" 30 "1" (some (.num 1)) =
      .error "TypeError" := by
  have h1 := run_step_behavior ⟨[], [], []⟩ ⟨0, none⟩ 0 "j" 30 "   "
  have h2 := run_step_behavior ⟨[], [], []⟩ ⟨0, none⟩ 0 "j" 30 "not json"
  have h3 := run_step_behavior ⟨[], [], []⟩ ⟨0, none⟩ 0 "j" 30 "\x7b\"a\":1\x7d"
  have h4 := run_step_behavior ⟨[], [], []⟩ ⟨0, none⟩ 0 "j" 30 "\"harmless\""
  have h5 := run_step_behavior ⟨[], [], []⟩ ⟨0, none⟩ 0 "j" 30 "1"
  exact ⟨h1.1 rfl (some (.num 3)), h2.2.1,
    h3.2.2.1 [("a", .num 1)] rfl,
    h4.2.2.2.2.1 "harmless" rfl,
    h5.2.2.2.2.2.1 (by decide) 1⟩
